import Mathlib

set_option maxHeartbeats 1600000

/-!
Shallow embedding of the PresentMon frame-event query compiler and gather
engine, and of the multi-client parameter arbitration pinned down by the
repository's tests.

The repository carries two coexisting revisions of the gather engine:

* revision 1: `IntelPresentMon/PresentMonMiddleware/FrameEventQuery.cpp`
  (embedded here with the suffix `1`);
* revision 2: `IntelPresentMon/PresentMonMiddleware/source/FrameEventQuery.cpp`
  (embedded here with the suffix `2`).

Machine integers are modelled as `Nat` with explicit `% 2 ^ 64` where raw
unsigned arithmetic can wrap; `double` values are modelled symbolically as
either a NaN marker or an exact rational, since the only floating-point facts
the development needs are NaN-ness and equalities of exactly representable
small products.
-/

/-- Modelled from the spec: `pmon::util::GetPadding` (CommonUtilities/Memory.h
is not among the provided sources). Number of padding bytes needed to advance
`pos` to the next multiple of `align`, as used for output-offset alignment. -/
def getPadding (pos align : Nat) : Nat := (align - pos % align) % align

/-- Wrap a value to the unsigned 64-bit range. -/
def wrap64 (n : Nat) : Nat := n % 2 ^ 64

/-- Unsigned 64-bit subtraction `a - b` with wraparound. -/
def sub64 (a b : Nat) : Nat := (a + (2 ^ 64 - b % 2 ^ 64)) % 2 ^ 64

/-- Unsigned 32-bit subtraction with wraparound (for `DisplayedCount - 1`). -/
def sub32 (a b : Nat) : Nat := (a + (2 ^ 32 - b % 2 ^ 32)) % 2 ^ 32

/-- Output-type tag of a gather command. Each tag carries the natural
alignment and size of the corresponding C++ output type; `chars260` is the
`char[260]` application-name buffer. -/
inductive TypeTag
| u64 | u32 | i32 | f64 | b8 | e4 | chars260
deriving DecidableEq

/-- Natural alignment in bytes of an output type (C++ `alignof`). -/
def alignOfTag : TypeTag → Nat
| .u64 => 8
| .u32 => 4
| .i32 => 4
| .f64 => 8
| .b8 => 1
| .e4 => 4
| .chars260 => 1

/-- Size in bytes of an output type (C++ `sizeof`). -/
def sizeOfTag : TypeTag → Nat
| .u64 => 8
| .u32 => 4
| .i32 => 4
| .f64 => 8
| .b8 => 1
| .e4 => 4
| .chars260 => 260

/-- Present completion state (`PresentResult` of the stream format). -/
inductive PresentResult
| Unknown | Presented | Discarded
deriving DecidableEq

/-- Modelled from the spec: `PmNsmPresentEvent` (StreamFormat.h is not among
the provided sources); the fields are exactly those accessed by the two
FrameEventQuery.cpp revisions. The `Displayed_ScreenTime` and
`Displayed_FrameType` fixed arrays are modelled as total index functions and
`application` as the char-buffer contents. -/
structure PmNsmPresentEvent where
  application : List Nat
  SwapChainAddress : Nat
  PresentMode : Nat
  Runtime : Nat
  SupportsTearing : Bool
  FrameType : Nat
  SyncInterval : Int
  PresentFlags : Nat
  PresentStartTime : Nat
  TimeInPresent : Nat
  GPUStartTime : Nat
  ReadyTime : Nat
  GPUDuration : Nat
  ScreenTime : Nat
  InputTime : Nat
  FinalState : PresentResult
  Displayed_ScreenTime : Nat → Nat
  Displayed_FrameType : Nat → Nat
  DisplayedCount : Nat

/-- Modelled from the spec: `PresentMonPowerTelemetryInfo` fields read by the
gather engines (doubles as `ℚ`, unsigned quantities as `Nat`, limit flags as
`Bool`, the fan-speed fixed array as an index function). -/
structure PresentMonPowerTelemetryInfo where
  gpu_power_w : ℚ
  gpu_voltage_v : ℚ
  gpu_frequency_mhz : ℚ
  gpu_temperature_c : ℚ
  fan_speed_rpm : Nat → ℚ
  gpu_utilization : ℚ
  gpu_render_compute_utilization : ℚ
  gpu_media_utilization : ℚ
  vram_power_w : ℚ
  vram_voltage_v : ℚ
  vram_frequency_mhz : ℚ
  vram_effective_frequency_gbps : ℚ
  vram_temperature_c : ℚ
  gpu_mem_total_size_b : Nat
  gpu_mem_used_b : Nat
  gpu_mem_max_bandwidth_bps : Nat
  gpu_mem_write_bandwidth_bps : Nat
  gpu_mem_read_bandwidth_bps : Nat
  gpu_power_limited : Bool
  gpu_temperature_limited : Bool
  gpu_current_limited : Bool
  gpu_voltage_limited : Bool
  gpu_utilization_limited : Bool
  vram_power_limited : Bool
  vram_temperature_limited : Bool
  vram_current_limited : Bool
  vram_voltage_limited : Bool
  vram_utilization_limited : Bool

/-- Modelled from the spec: `CpuTelemetryInfo` fields read by the engines. -/
structure CpuTelemetryInfo where
  cpu_utilization : ℚ
  cpu_power_w : ℚ
  cpu_temperature : ℚ
  cpu_frequency : ℚ

/-- Modelled from the spec: `PmNsmFrameData`, the raw frame record with its
three substructures. -/
structure PmNsmFrameData where
  present_event : PmNsmPresentEvent
  power_telemetry : PresentMonPowerTelemetryInfo
  cpu_telemetry : CpuTelemetryInfo

/-- The `uint64_t` members of `PmNsmPresentEvent` that the QPC gather-command
templates take as member-pointer parameters. -/
inductive PreU64Field
| PresentStartTime | TimeInPresent | GPUStartTime | ReadyTime
| GPUDuration | ScreenTime | InputTime
deriving DecidableEq

/-- Read a `uint64_t` present-event member. -/
def readPreU64 (fd : PmNsmFrameData) : PreU64Field → Nat
| .PresentStartTime => fd.present_event.PresentStartTime
| .TimeInPresent => fd.present_event.TimeInPresent
| .GPUStartTime => fd.present_event.GPUStartTime
| .ReadyTime => fd.present_event.ReadyTime
| .GPUDuration => fd.present_event.GPUDuration
| .ScreenTime => fd.present_event.ScreenTime
| .InputTime => fd.present_event.InputTime

/-- The scalar (non-array) members handled by `CopyGatherCommand_`, across the
three substructures, identified by their source member names. -/
inductive ScalarField
| SwapChainAddress | PresentMode | Runtime | SupportsTearing | FrameType
| SyncInterval | PresentFlags
| gpu_power_w | gpu_voltage_v | gpu_frequency_mhz | gpu_temperature_c
| gpu_utilization | gpu_render_compute_utilization | gpu_media_utilization
| vram_power_w | vram_voltage_v | vram_frequency_mhz
| vram_effective_frequency_gbps | vram_temperature_c
| gpu_mem_total_size_b | gpu_mem_used_b | gpu_mem_max_bandwidth_bps
| gpu_mem_write_bandwidth_bps | gpu_mem_read_bandwidth_bps
| gpu_power_limited | gpu_temperature_limited | gpu_current_limited
| gpu_voltage_limited | gpu_utilization_limited
| vram_power_limited | vram_temperature_limited | vram_current_limited
| vram_voltage_limited | vram_utilization_limited
| cpu_utilization | cpu_power_w | cpu_temperature | cpu_frequency
deriving DecidableEq

/-- Output-type tag of each scalar copy member. -/
def tagOfScalar : ScalarField → TypeTag
| .SwapChainAddress => .u64
| .PresentMode => .e4
| .Runtime => .e4
| .SupportsTearing => .b8
| .FrameType => .e4
| .SyncInterval => .i32
| .PresentFlags => .u32
| .gpu_power_w => .f64
| .gpu_voltage_v => .f64
| .gpu_frequency_mhz => .f64
| .gpu_temperature_c => .f64
| .gpu_utilization => .f64
| .gpu_render_compute_utilization => .f64
| .gpu_media_utilization => .f64
| .vram_power_w => .f64
| .vram_voltage_v => .f64
| .vram_frequency_mhz => .f64
| .vram_effective_frequency_gbps => .f64
| .vram_temperature_c => .f64
| .gpu_mem_total_size_b => .u64
| .gpu_mem_used_b => .u64
| .gpu_mem_max_bandwidth_bps => .u64
| .gpu_mem_write_bandwidth_bps => .u64
| .gpu_mem_read_bandwidth_bps => .u64
| .gpu_power_limited => .b8
| .gpu_temperature_limited => .b8
| .gpu_current_limited => .b8
| .gpu_voltage_limited => .b8
| .gpu_utilization_limited => .b8
| .vram_power_limited => .b8
| .vram_temperature_limited => .b8
| .vram_current_limited => .b8
| .vram_voltage_limited => .b8
| .vram_utilization_limited => .b8
| .cpu_utilization => .f64
| .cpu_power_w => .f64
| .cpu_temperature => .f64
| .cpu_frequency => .f64

/-- Value written into the destination blob by one gather command, modelled
symbolically: a NaN marker, an exact rational standing for a `double`, a raw
unsigned word, a raw signed word, a boolean byte, or a copied byte string. -/
inductive Val
| nan
| num (q : ℚ)
| word (n : Nat)
| iword (n : Int)
| bitv (b : Bool)
| bytes (s : List Nat)
deriving DecidableEq

/-- Read a scalar copy member as a written value. -/
def readScalar (fd : PmNsmFrameData) : ScalarField → Val
| .SwapChainAddress => .word fd.present_event.SwapChainAddress
| .PresentMode => .word fd.present_event.PresentMode
| .Runtime => .word fd.present_event.Runtime
| .SupportsTearing => .bitv fd.present_event.SupportsTearing
| .FrameType => .word fd.present_event.FrameType
| .SyncInterval => .iword fd.present_event.SyncInterval
| .PresentFlags => .word fd.present_event.PresentFlags
| .gpu_power_w => .num fd.power_telemetry.gpu_power_w
| .gpu_voltage_v => .num fd.power_telemetry.gpu_voltage_v
| .gpu_frequency_mhz => .num fd.power_telemetry.gpu_frequency_mhz
| .gpu_temperature_c => .num fd.power_telemetry.gpu_temperature_c
| .gpu_utilization => .num fd.power_telemetry.gpu_utilization
| .gpu_render_compute_utilization => .num fd.power_telemetry.gpu_render_compute_utilization
| .gpu_media_utilization => .num fd.power_telemetry.gpu_media_utilization
| .vram_power_w => .num fd.power_telemetry.vram_power_w
| .vram_voltage_v => .num fd.power_telemetry.vram_voltage_v
| .vram_frequency_mhz => .num fd.power_telemetry.vram_frequency_mhz
| .vram_effective_frequency_gbps => .num fd.power_telemetry.vram_effective_frequency_gbps
| .vram_temperature_c => .num fd.power_telemetry.vram_temperature_c
| .gpu_mem_total_size_b => .word fd.power_telemetry.gpu_mem_total_size_b
| .gpu_mem_used_b => .word fd.power_telemetry.gpu_mem_used_b
| .gpu_mem_max_bandwidth_bps => .word fd.power_telemetry.gpu_mem_max_bandwidth_bps
| .gpu_mem_write_bandwidth_bps => .word fd.power_telemetry.gpu_mem_write_bandwidth_bps
| .gpu_mem_read_bandwidth_bps => .word fd.power_telemetry.gpu_mem_read_bandwidth_bps
| .gpu_power_limited => .bitv fd.power_telemetry.gpu_power_limited
| .gpu_temperature_limited => .bitv fd.power_telemetry.gpu_temperature_limited
| .gpu_current_limited => .bitv fd.power_telemetry.gpu_current_limited
| .gpu_voltage_limited => .bitv fd.power_telemetry.gpu_voltage_limited
| .gpu_utilization_limited => .bitv fd.power_telemetry.gpu_utilization_limited
| .vram_power_limited => .bitv fd.power_telemetry.vram_power_limited
| .vram_temperature_limited => .bitv fd.power_telemetry.vram_temperature_limited
| .vram_current_limited => .bitv fd.power_telemetry.vram_current_limited
| .vram_voltage_limited => .bitv fd.power_telemetry.vram_voltage_limited
| .vram_utilization_limited => .bitv fd.power_telemetry.vram_utilization_limited
| .cpu_utilization => .num fd.cpu_telemetry.cpu_utilization
| .cpu_power_w => .num fd.cpu_telemetry.cpu_power_w
| .cpu_temperature => .num fd.cpu_telemetry.cpu_temperature
| .cpu_frequency => .num fd.cpu_telemetry.cpu_frequency

/-- One write performed into the destination blob: starting byte offset, the
number of bytes written, and the written value. -/
structure Wr where
  off : Nat
  len : Nat
  val : Val
deriving DecidableEq

/-- Helper `TimestampDeltaToMilliSeconds(delta, period)` (two-argument
overload): convert a QPC tick count to milliseconds. -/
def timestampDeltaToMilliSeconds (timestampDelta : Nat) (periodMs : ℚ) : ℚ :=
  periodMs * (timestampDelta : ℚ)

/-- Helper `TimestampDeltaToUnsignedMilliSeconds(from, to, period)`: zero when
`from` is zero or `to <= from`, otherwise the positive delta in ms. -/
def timestampDeltaToUnsignedMilliSeconds (tFrom tTo : Nat) (periodMs : ℚ) : ℚ :=
  if tFrom = 0 ∨ tTo ≤ tFrom then 0
  else timestampDeltaToMilliSeconds (tTo - tFrom) periodMs

/-- Helper `TimestampDeltaToMilliSeconds(from, to, period)` (three-argument
overload, signed): zero when either side is zero or they are equal, else the
signed delta in ms. -/
def timestampDeltaToSignedMilliSeconds (tFrom tTo : Nat) (periodMs : ℚ) : ℚ :=
  if tFrom = 0 ∨ tTo = 0 ∨ tFrom = tTo then 0
  else if tTo > tFrom then timestampDeltaToMilliSeconds (tTo - tFrom) periodMs
  else -(timestampDeltaToMilliSeconds (tFrom - tTo) periodMs)

/-- Length of the NUL-terminated string held in a char buffer. -/
def cstrLen (buf : List Nat) : Nat := (buf.takeWhile (fun c => c != 0)).length

/-- The public metric enumeration values that appear in the repository's
`MapQueryElementToGatherCommand_` switch, plus two members of the public
enumeration (`PM_METRIC_CPU_VENDOR`, `PM_METRIC_GPU_VENDOR`) that fall into
its `default:` branch. -/
inductive PM_METRIC
| PM_METRIC_APPLICATION
| PM_METRIC_GPU_MEM_SIZE
| PM_METRIC_GPU_MEM_MAX_BANDWIDTH
| PM_METRIC_SWAP_CHAIN_ADDRESS
| PM_METRIC_GPU_BUSY
| PM_METRIC_DROPPED_FRAMES
| PM_METRIC_PRESENT_MODE
| PM_METRIC_PRESENT_RUNTIME
| PM_METRIC_CPU_START_QPC
| PM_METRIC_ALLOWS_TEARING
| PM_METRIC_FRAME_TYPE
| PM_METRIC_SYNC_INTERVAL
| PM_METRIC_GPU_POWER
| PM_METRIC_GPU_VOLTAGE
| PM_METRIC_GPU_FREQUENCY
| PM_METRIC_GPU_TEMPERATURE
| PM_METRIC_GPU_FAN_SPEED
| PM_METRIC_GPU_UTILIZATION
| PM_METRIC_GPU_RENDER_COMPUTE_UTILIZATION
| PM_METRIC_GPU_MEDIA_UTILIZATION
| PM_METRIC_GPU_MEM_POWER
| PM_METRIC_GPU_MEM_VOLTAGE
| PM_METRIC_GPU_MEM_FREQUENCY
| PM_METRIC_GPU_MEM_EFFECTIVE_FREQUENCY
| PM_METRIC_GPU_MEM_TEMPERATURE
| PM_METRIC_GPU_MEM_USED
| PM_METRIC_GPU_MEM_WRITE_BANDWIDTH
| PM_METRIC_GPU_MEM_READ_BANDWIDTH
| PM_METRIC_GPU_POWER_LIMITED
| PM_METRIC_GPU_TEMPERATURE_LIMITED
| PM_METRIC_GPU_CURRENT_LIMITED
| PM_METRIC_GPU_VOLTAGE_LIMITED
| PM_METRIC_GPU_UTILIZATION_LIMITED
| PM_METRIC_GPU_MEM_POWER_LIMITED
| PM_METRIC_GPU_MEM_TEMPERATURE_LIMITED
| PM_METRIC_GPU_MEM_CURRENT_LIMITED
| PM_METRIC_GPU_MEM_VOLTAGE_LIMITED
| PM_METRIC_GPU_MEM_UTILIZATION_LIMITED
| PM_METRIC_CPU_UTILIZATION
| PM_METRIC_CPU_POWER
| PM_METRIC_CPU_TEMPERATURE
| PM_METRIC_CPU_FREQUENCY
| PM_METRIC_PRESENT_FLAGS
| PM_METRIC_CPU_START_TIME
| PM_METRIC_CPU_FRAME_TIME
| PM_METRIC_CPU_BUSY
| PM_METRIC_CPU_WAIT
| PM_METRIC_GPU_TIME
| PM_METRIC_GPU_WAIT
| PM_METRIC_DISPLAYED_TIME
| PM_METRIC_ANIMATION_ERROR
| PM_METRIC_GPU_LATENCY
| PM_METRIC_DISPLAY_LATENCY
| PM_METRIC_CLICK_TO_PHOTON_LATENCY
| PM_METRIC_CPU_VENDOR
| PM_METRIC_GPU_VENDOR
deriving DecidableEq

/-- A `PM_QUERY_ELEMENT`: the client-supplied metric request, with the
`dataOffset` and `dataSize` output fields that compilation back-fills. -/
structure PM_QUERY_ELEMENT where
  metric : PM_METRIC
  deviceId : Nat
  arrayIndex : Nat
  dataOffset : Nat
  dataSize : Nat
deriving DecidableEq

/-!
Revision 1 of the gather engine:
`IntelPresentMon/PresentMonMiddleware/FrameEventQuery.cpp`.
-/

/-- The `PM_FRAME_QUERY::Context` of revision 1: the per-frame scratchpad
holding the source frame record and the derived neighbour scalars. -/
structure Ctx1 where
  pSourceFrameData : PmNsmFrameData
  dropped : Bool
  cpuStart : Nat
  nextDisplayedQpc : Nat
  previousDisplayedQpc : Nat
  previousDisplayedCpuStartQpc : Nat
  qpcStart : Nat
  performanceCounterPeriodMs : ℚ

/-- The gather-command hierarchy of revision 1 as a tagged variant; each arm
carries the template parameters of its C++ class together with the
constructor-computed `outputOffset_` and `outputPaddingSize_`. -/
inductive Cmd1
| copy (f : ScalarField) (off pad : Nat)
| copyChars (idx off pad : Nat)
| copyFanSpeed (idx off pad : Nat)
| qpcDuration (m : PreU64Field) (off pad : Nat)
| qpcDifference (ps pe : PreU64Field) (doZeroCheck doDroppedCheck allowNegative : Bool) (off pad : Nat)
| droppedCmd (off : Nat)
| startDifference (pe : PreU64Field) (off pad : Nat)
| cpuFrameQpcCmd (off : Nat)
| cpuFrameQpcDifference (pe : PreU64Field) (doDroppedCheck : Bool) (off pad : Nat)
| displayDifference (ps : PreU64Field) (doDroppedCheck doZeroCheck : Bool) (off pad : Nat)
| animationError (ps : PreU64Field) (doDroppedCheck doZeroCheck : Bool) (off pad : Nat)
| cpuFrameQpcFrameTime (off : Nat)
| gpuWaitCmd (off : Nat)
deriving DecidableEq

/-- Output-type tag of a revision-1 command. The composite
`CpuFrameQpcFrameTimeCommand_` and `GpuWaitGatherCommand_` classes compute
their end offset from `alignof(uint64_t)` in the source, hence the `u64`
tags there. -/
def outTag1 : Cmd1 → TypeTag
| .copy f _ _ => tagOfScalar f
| .copyChars _ _ _ => .chars260
| .copyFanSpeed _ _ _ => .f64
| .qpcDuration _ _ _ => .f64
| .qpcDifference _ _ _ _ _ _ _ => .f64
| .droppedCmd _ => .b8
| .startDifference _ _ _ => .f64
| .cpuFrameQpcCmd _ => .u64
| .cpuFrameQpcDifference _ _ _ _ => .f64
| .displayDifference _ _ _ _ _ => .f64
| .animationError _ _ _ _ _ => .f64
| .cpuFrameQpcFrameTime _ => .u64
| .gpuWaitCmd _ => .u64

/-- The `GetOutputOffset` member of a revision-1 command. -/
def outputOffset1 : Cmd1 → Nat
| .copy _ off _ => off
| .copyChars _ off _ => off
| .copyFanSpeed _ off _ => off
| .qpcDuration _ off _ => off
| .qpcDifference _ _ _ _ _ off _ => off
| .droppedCmd off => off
| .startDifference _ off _ => off
| .cpuFrameQpcCmd off => off
| .cpuFrameQpcDifference _ _ off _ => off
| .displayDifference _ _ _ off _ => off
| .animationError _ _ _ off _ => off
| .cpuFrameQpcFrameTime off => off
| .gpuWaitCmd off => off

/-- The stored `outputPaddingSize_` (zero for the classes without one). -/
def padOf1 : Cmd1 → Nat
| .copy _ _ pad => pad
| .copyChars _ _ pad => pad
| .copyFanSpeed _ _ pad => pad
| .qpcDuration _ _ pad => pad
| .qpcDifference _ _ _ _ _ _ pad => pad
| .droppedCmd _ => 0
| .startDifference _ _ pad => pad
| .cpuFrameQpcCmd _ => 0
| .cpuFrameQpcDifference _ _ _ pad => pad
| .displayDifference _ _ _ _ pad => pad
| .animationError _ _ _ _ pad => pad
| .cpuFrameQpcFrameTime _ => 0
| .gpuWaitCmd _ => 0

/-- The `GetBeginOffset` member: `outputOffset_ - outputPaddingSize_`. -/
def beginOffset1 (c : Cmd1) : Nat := outputOffset1 c - padOf1 c

/-- The `GetEndOffset` member: every revision-1 class returns
`outputOffset_ + alignof(OutputType)`. -/
def endOffset1 (c : Cmd1) : Nat := outputOffset1 c + alignOfTag (outTag1 c)

/-- The `GetDataSize` member: `GetEndOffset() - GetOutputOffset()`. -/
def dataSize1 (c : Cmd1) : Nat := endOffset1 c - outputOffset1 c

/-- The `GetTotalSize` member: `GetEndOffset() - GetBeginOffset()`. -/
def totalSize1 (c : Cmd1) : Nat := endOffset1 c - beginOffset1 c

/-- Aligned output offset: `nextAvailableByteOffset + GetPadding(pos, align)`
as computed by the command constructors. -/
def alignedOff (pos align : Nat) : Nat := pos + getPadding pos align

/-- The `PM_FRAME_QUERY::MapQueryElementToGatherCommand_` switch of
revision 1: dispatch a metric to its gather command, constructed at the next
available byte offset `pos`; `ai` is the element's `arrayIndex` (only used by
`PM_METRIC_GPU_FAN_SPEED`). Unknown metrics yield `none`. -/
def map1 (m : PM_METRIC) (ai pos : Nat) : Option Cmd1 :=
  match m with
  | .PM_METRIC_APPLICATION => some (.copyChars 0 (alignedOff pos 1) (getPadding pos 1))
  | .PM_METRIC_GPU_MEM_SIZE => some (.copy .gpu_mem_total_size_b (alignedOff pos 8) (getPadding pos 8))
  | .PM_METRIC_GPU_MEM_MAX_BANDWIDTH => some (.copy .gpu_mem_max_bandwidth_bps (alignedOff pos 8) (getPadding pos 8))
  | .PM_METRIC_SWAP_CHAIN_ADDRESS => some (.copy .SwapChainAddress (alignedOff pos 8) (getPadding pos 8))
  | .PM_METRIC_GPU_BUSY => some (.qpcDuration .GPUDuration (alignedOff pos 8) (getPadding pos 8))
  | .PM_METRIC_DROPPED_FRAMES => some (.droppedCmd pos)
  | .PM_METRIC_PRESENT_MODE => some (.copy .PresentMode (alignedOff pos 4) (getPadding pos 4))
  | .PM_METRIC_PRESENT_RUNTIME => some (.copy .Runtime (alignedOff pos 4) (getPadding pos 4))
  | .PM_METRIC_CPU_START_QPC => some (.cpuFrameQpcCmd pos)
  | .PM_METRIC_ALLOWS_TEARING => some (.copy .SupportsTearing (alignedOff pos 1) (getPadding pos 1))
  | .PM_METRIC_FRAME_TYPE => some (.copy .FrameType (alignedOff pos 4) (getPadding pos 4))
  | .PM_METRIC_SYNC_INTERVAL => some (.copy .SyncInterval (alignedOff pos 4) (getPadding pos 4))
  | .PM_METRIC_GPU_POWER => some (.copy .gpu_power_w (alignedOff pos 8) (getPadding pos 8))
  | .PM_METRIC_GPU_VOLTAGE => some (.copy .gpu_voltage_v (alignedOff pos 8) (getPadding pos 8))
  | .PM_METRIC_GPU_FREQUENCY => some (.copy .gpu_frequency_mhz (alignedOff pos 8) (getPadding pos 8))
  | .PM_METRIC_GPU_TEMPERATURE => some (.copy .gpu_temperature_c (alignedOff pos 8) (getPadding pos 8))
  | .PM_METRIC_GPU_FAN_SPEED => some (.copyFanSpeed ai (alignedOff pos 8) (getPadding pos 8))
  | .PM_METRIC_GPU_UTILIZATION => some (.copy .gpu_utilization (alignedOff pos 8) (getPadding pos 8))
  | .PM_METRIC_GPU_RENDER_COMPUTE_UTILIZATION => some (.copy .gpu_render_compute_utilization (alignedOff pos 8) (getPadding pos 8))
  | .PM_METRIC_GPU_MEDIA_UTILIZATION => some (.copy .gpu_media_utilization (alignedOff pos 8) (getPadding pos 8))
  | .PM_METRIC_GPU_MEM_POWER => some (.copy .vram_power_w (alignedOff pos 8) (getPadding pos 8))
  | .PM_METRIC_GPU_MEM_VOLTAGE => some (.copy .vram_voltage_v (alignedOff pos 8) (getPadding pos 8))
  | .PM_METRIC_GPU_MEM_FREQUENCY => some (.copy .vram_frequency_mhz (alignedOff pos 8) (getPadding pos 8))
  | .PM_METRIC_GPU_MEM_EFFECTIVE_FREQUENCY => some (.copy .vram_effective_frequency_gbps (alignedOff pos 8) (getPadding pos 8))
  | .PM_METRIC_GPU_MEM_TEMPERATURE => some (.copy .vram_temperature_c (alignedOff pos 8) (getPadding pos 8))
  | .PM_METRIC_GPU_MEM_USED => some (.copy .gpu_mem_used_b (alignedOff pos 8) (getPadding pos 8))
  | .PM_METRIC_GPU_MEM_WRITE_BANDWIDTH => some (.copy .gpu_mem_write_bandwidth_bps (alignedOff pos 8) (getPadding pos 8))
  | .PM_METRIC_GPU_MEM_READ_BANDWIDTH => some (.copy .gpu_mem_read_bandwidth_bps (alignedOff pos 8) (getPadding pos 8))
  | .PM_METRIC_GPU_POWER_LIMITED => some (.copy .gpu_power_limited (alignedOff pos 1) (getPadding pos 1))
  | .PM_METRIC_GPU_TEMPERATURE_LIMITED => some (.copy .gpu_temperature_limited (alignedOff pos 1) (getPadding pos 1))
  | .PM_METRIC_GPU_CURRENT_LIMITED => some (.copy .gpu_current_limited (alignedOff pos 1) (getPadding pos 1))
  | .PM_METRIC_GPU_VOLTAGE_LIMITED => some (.copy .gpu_voltage_limited (alignedOff pos 1) (getPadding pos 1))
  | .PM_METRIC_GPU_UTILIZATION_LIMITED => some (.copy .gpu_utilization_limited (alignedOff pos 1) (getPadding pos 1))
  | .PM_METRIC_GPU_MEM_POWER_LIMITED => some (.copy .vram_power_limited (alignedOff pos 1) (getPadding pos 1))
  | .PM_METRIC_GPU_MEM_TEMPERATURE_LIMITED => some (.copy .vram_temperature_limited (alignedOff pos 1) (getPadding pos 1))
  | .PM_METRIC_GPU_MEM_CURRENT_LIMITED => some (.copy .vram_current_limited (alignedOff pos 1) (getPadding pos 1))
  | .PM_METRIC_GPU_MEM_VOLTAGE_LIMITED => some (.copy .vram_voltage_limited (alignedOff pos 1) (getPadding pos 1))
  | .PM_METRIC_GPU_MEM_UTILIZATION_LIMITED => some (.copy .vram_utilization_limited (alignedOff pos 1) (getPadding pos 1))
  | .PM_METRIC_CPU_UTILIZATION => some (.copy .cpu_utilization (alignedOff pos 8) (getPadding pos 8))
  | .PM_METRIC_CPU_POWER => some (.copy .cpu_power_w (alignedOff pos 8) (getPadding pos 8))
  | .PM_METRIC_CPU_TEMPERATURE => some (.copy .cpu_temperature (alignedOff pos 8) (getPadding pos 8))
  | .PM_METRIC_CPU_FREQUENCY => some (.copy .cpu_frequency (alignedOff pos 8) (getPadding pos 8))
  | .PM_METRIC_PRESENT_FLAGS => some (.copy .PresentFlags (alignedOff pos 4) (getPadding pos 4))
  | .PM_METRIC_CPU_START_TIME => some (.startDifference .PresentStartTime (alignedOff pos 8) (getPadding pos 8))
  | .PM_METRIC_CPU_FRAME_TIME => some (.cpuFrameQpcFrameTime pos)
  | .PM_METRIC_CPU_BUSY => some (.cpuFrameQpcDifference .PresentStartTime false (alignedOff pos 8) (getPadding pos 8))
  | .PM_METRIC_CPU_WAIT => some (.qpcDuration .TimeInPresent (alignedOff pos 8) (getPadding pos 8))
  | .PM_METRIC_GPU_TIME => some (.qpcDifference .GPUStartTime .ReadyTime false false false (alignedOff pos 8) (getPadding pos 8))
  | .PM_METRIC_GPU_WAIT => some (.gpuWaitCmd pos)
  | .PM_METRIC_DISPLAYED_TIME => some (.displayDifference .ScreenTime true true (alignedOff pos 8) (getPadding pos 8))
  | .PM_METRIC_ANIMATION_ERROR => some (.animationError .ScreenTime true true (alignedOff pos 8) (getPadding pos 8))
  | .PM_METRIC_GPU_LATENCY => some (.cpuFrameQpcDifference .GPUStartTime false (alignedOff pos 8) (getPadding pos 8))
  | .PM_METRIC_DISPLAY_LATENCY => some (.cpuFrameQpcDifference .ScreenTime true (alignedOff pos 8) (getPadding pos 8))
  | .PM_METRIC_CLICK_TO_PHOTON_LATENCY => some (.qpcDifference .InputTime .ScreenTime true true false (alignedOff pos 8) (getPadding pos 8))
  | .PM_METRIC_CPU_VENDOR => none
  | .PM_METRIC_GPU_VENDOR => none

/-- Whether a metric is in the supported mapping of revision 1. -/
def supported1 (m : PM_METRIC) : Bool :=
  match m with
  | .PM_METRIC_CPU_VENDOR => false
  | .PM_METRIC_GPU_VENDOR => false
  | _ => true

/-- Bytes copied by the char-array branch of `CopyGatherCommand_::Gather`.
The source performs `strcpy_s(dst + outputOffset_, 260, &val)` where `val` is
the single char `application[inputIndex_]`; reading past that stack copy is
undefined, and the spec (section 9) directs that the operation be treated as
a full null-terminated string copy bounded at 260 bytes, which is what is
modelled here. -/
def strcpyChars (buf : List Nat) (idx : Nat) : List Nat :=
  ((buf.drop idx).takeWhile (fun c => c != 0)).take 259

/-- Whether a revision-1 command is the char-array copy arm. -/
def isCharsCmd1 : Cmd1 → Bool
| .copyChars _ _ _ => true
| _ => false

/-- The `Gather` member of each revision-1 command: the single write it
performs into the destination blob (offset, byte length, value). All
`double`-writing commands write 8 bytes; the char-array copy writes the
copied string plus its NUL terminator. -/
def gather1 (c : Cmd1) (ctx : Ctx1) : Wr :=
  let fd := ctx.pSourceFrameData
  let period := ctx.performanceCounterPeriodMs
  match c with
  | .copy f off _ => ⟨off, sizeOfTag (tagOfScalar f), readScalar fd f⟩
  | .copyChars idx off _ =>
      let s := strcpyChars fd.present_event.application idx
      ⟨off, s.length + 1, .bytes s⟩
  | .copyFanSpeed idx off _ => ⟨off, 8, .num (fd.power_telemetry.fan_speed_rpm idx)⟩
  | .qpcDuration m off _ =>
      let d := readPreU64 fd m
      if d ≠ 0 then ⟨off, 8, .num (period * (d : ℚ))⟩ else ⟨off, 8, .num 0⟩
  | .qpcDifference ps pe doZeroCheck doDroppedCheck allowNegative off _ =>
      if doDroppedCheck ∧ ctx.dropped then ⟨off, 8, .nan⟩
      else
        let start := readPreU64 fd ps
        if doZeroCheck ∧ start = 0 then ⟨off, 8, .nan⟩
        else if allowNegative then
          ⟨off, 8, .num (period * ((readPreU64 fd pe : ℚ) - (start : ℚ)))⟩
        else
          ⟨off, 8, .num (timestampDeltaToUnsignedMilliSeconds start (readPreU64 fd pe) period)⟩
  | .droppedCmd off => ⟨off, 1, .bitv ctx.dropped⟩
  | .startDifference pe off _ =>
      ⟨off, 8, .num (period * (sub64 (readPreU64 fd pe) ctx.qpcStart : ℚ))⟩
  | .cpuFrameQpcCmd off => ⟨off, 8, .word ctx.cpuStart⟩
  | .cpuFrameQpcDifference pe doDroppedCheck off _ =>
      if doDroppedCheck ∧ ctx.dropped then ⟨off, 8, .nan⟩
      else ⟨off, 8, .num (timestampDeltaToUnsignedMilliSeconds ctx.cpuStart (readPreU64 fd pe) period)⟩
  | .displayDifference ps doDroppedCheck doZeroCheck off _ =>
      if doDroppedCheck ∧ ctx.dropped then ⟨off, 8, .nan⟩
      else
        let v := timestampDeltaToUnsignedMilliSeconds (readPreU64 fd ps) ctx.nextDisplayedQpc period
        if doZeroCheck ∧ v = 0 then ⟨off, 8, .nan⟩ else ⟨off, 8, .num v⟩
  | .animationError ps doDroppedCheck doZeroCheck off _ =>
      if doDroppedCheck ∧ ctx.dropped then ⟨off, 8, .nan⟩
      else if doZeroCheck ∧ ctx.previousDisplayedCpuStartQpc = 0 then ⟨off, 8, .num 0⟩
      else
        ⟨off, 8, .num (timestampDeltaToSignedMilliSeconds
          (sub64 (readPreU64 fd ps) ctx.previousDisplayedQpc)
          (sub64 ctx.cpuStart ctx.previousDisplayedCpuStartQpc) period)⟩
  | .cpuFrameQpcFrameTime off =>
      let cpuBusy := timestampDeltaToUnsignedMilliSeconds ctx.cpuStart fd.present_event.PresentStartTime period
      let cpuWait := timestampDeltaToMilliSeconds fd.present_event.TimeInPresent period
      ⟨off, 8, .num (cpuBusy + cpuWait)⟩
  | .gpuWaitCmd off =>
      let gpuDuration := timestampDeltaToUnsignedMilliSeconds fd.present_event.GPUStartTime fd.present_event.ReadyTime period
      let gpuBusy := timestampDeltaToMilliSeconds fd.present_event.GPUDuration period
      ⟨off, 8, .num (max 0 (gpuDuration - gpuBusy))⟩

/-- Compilation error of the revision-1 `PM_FRAME_QUERY` constructor: the
only throw is the two-different-non-universal-devices check. -/
inductive CompileError1
| duplicateDevice
deriving DecidableEq

/-- The per-element device-id validation shared by both constructor loops:
a non-zero device id either fixes the referenced device, matches it, or
raises the duplicate-device error `dup`. -/
def devStep {ε : Type} (dup : ε) (q : PM_QUERY_ELEMENT) (ref : Option Nat) :
    Except ε (Option Nat) :=
  if q.deviceId ≠ 0 then
    match ref with
    | none => .ok (some q.deviceId)
    | some d => if d ≠ q.deviceId then .error dup else .ok (some d)
  else .ok ref

/-- The element loop of the revision-1 `PM_FRAME_QUERY` constructor. Walks
the elements threading the running `blobSize_` and `referencedDevice_`;
produces each element back-filled with `dataOffset`/`dataSize` paired with
the command compiled for it (`none` when the metric was unknown and the
element was skipped). -/
def compileAux1 : List PM_QUERY_ELEMENT → Nat → Option Nat →
    Except CompileError1 (List (PM_QUERY_ELEMENT × Option Cmd1) × Nat × Option Nat)
  | [], blob, ref => .ok ([], blob, ref)
  | q :: qs, blob, ref =>
    match devStep .duplicateDevice q ref with
    | .error e => .error e
    | .ok ref1 =>
      match map1 q.metric q.arrayIndex blob with
      | some cmd =>
        match compileAux1 qs (blob + totalSize1 cmd) ref1 with
        | .error e => .error e
        | .ok (zs, bF, rF) =>
          .ok (({ q with dataOffset := outputOffset1 cmd, dataSize := dataSize1 cmd },
                some cmd) :: zs, bF, rF)
      | none =>
        match compileAux1 qs blob ref1 with
        | .error e => .error e
        | .ok (zs, bF, rF) => .ok ((q, none) :: zs, bF, rF)

/-- The compiled revision-1 `PM_FRAME_QUERY`: back-filled elements paired
with their commands, the final `blobSize_`, and `referencedDevice_`. -/
structure FrameQuery1 where
  elements : List (PM_QUERY_ELEMENT × Option Cmd1)
  blobSize : Nat
  referencedDevice : Option Nat
deriving DecidableEq

/-- The revision-1 `PM_FRAME_QUERY` constructor: run the element loop from a
zero blob size and pad the final blob size to a multiple of 16. -/
def compile1 (qs : List PM_QUERY_ELEMENT) : Except CompileError1 FrameQuery1 :=
  match compileAux1 qs 0 none with
  | .error e => .error e
  | .ok (zs, blob, ref) => .ok ⟨zs, blob + getPadding blob 16, ref⟩

/-- The `gatherCommands_` vector of a compiled revision-1 query. -/
def gatherCommands1 (fq : FrameQuery1) : List Cmd1 := fq.elements.filterMap (·.2)

/-- The revision-1 `PM_FRAME_QUERY::GatherToBlob`: apply every command in
order; the result is the ordered list of writes performed. -/
def gatherToBlob1 (fq : FrameQuery1) (ctx : Ctx1) : List Wr :=
  (gatherCommands1 fq).map (fun c => gather1 c ctx)

/-- The revision-1 `PM_FRAME_QUERY::Context::UpdateSourceData`: recompute the
derived scalars from the source frame and its (possibly null) neighbours;
every absent neighbour yields 0 for its derived field. -/
def updateSourceData1 (ctx : Ctx1) (src : PmNsmFrameData)
    (pFrameDataOfNextDisplayed pFrameDataOfLastPresented
     pFrameDataOfLastDisplayed pPreviousFrameDataOfLastDisplayed :
       Option PmNsmFrameData) : Ctx1 :=
  { ctx with
    pSourceFrameData := src
    dropped := src.present_event.FinalState != PresentResult.Presented
    cpuStart :=
      match pFrameDataOfLastPresented with
      | some f => wrap64 (f.present_event.PresentStartTime + f.present_event.TimeInPresent)
      | none => 0
    nextDisplayedQpc :=
      match pFrameDataOfNextDisplayed with
      | some f => f.present_event.ScreenTime
      | none => 0
    previousDisplayedQpc :=
      match pFrameDataOfLastDisplayed with
      | some f => f.present_event.ScreenTime
      | none => 0
    previousDisplayedCpuStartQpc :=
      match pPreviousFrameDataOfLastDisplayed with
      | some f => wrap64 (f.present_event.PresentStartTime + f.present_event.TimeInPresent)
      | none => 0 }

/-!
Revision 2 of the gather engine:
`IntelPresentMon/PresentMonMiddleware/source/FrameEventQuery.cpp`.
-/

/-- The `PM_FRAME_QUERY::Context` of revision 2; the CPU-start scalar is
named `cpuFrameQpc` in this revision and a per-frame
`sourceFrameDisplayIndex` selects the displayed subframe. -/
structure Ctx2 where
  pSourceFrameData : PmNsmFrameData
  sourceFrameDisplayIndex : Nat
  dropped : Bool
  cpuFrameQpc : Nat
  nextDisplayedQpc : Nat
  previousDisplayedQpc : Nat
  previousDisplayedCpuStartQpc : Nat
  qpcStart : Nat
  performanceCounterPeriodMs : ℚ

/-- The gather-command hierarchy of revision 2. The multi-display commands
(`CopyGatherFrameTypeCommand_`, `ClickToPhotonGatherCommand_`,
`DisplayLatencyGatherCommand_`, `DisplayDifferenceGatherCommand_`,
`AnimationErrorGatherCommand_`) are dedicated non-template classes here. -/
inductive Cmd2
| copy (f : ScalarField) (off pad : Nat)
| copyChars (idx off pad : Nat)
| copyFanSpeed (idx off pad : Nat)
| copyFrameTypeCmd (idx off pad : Nat)
| qpcDuration (m : PreU64Field) (off pad : Nat)
| qpcDifference (ps pe : PreU64Field) (doZeroCheck doDroppedCheck allowNegative : Bool) (off pad : Nat)
| clickToPhoton (off pad : Nat)
| droppedCmd (off : Nat)
| startDifference (pe : PreU64Field) (off pad : Nat)
| cpuFrameQpcCmd (off : Nat)
| cpuFrameQpcDifference (pe : PreU64Field) (doDroppedCheck : Bool) (off pad : Nat)
| displayLatency (off pad : Nat)
| displayDifference2 (off pad : Nat)
| animationError2 (off pad : Nat)
| cpuFrameQpcFrameTime (off : Nat)
| gpuWaitCmd (off : Nat)
deriving DecidableEq

/-- Output-type tag of a revision-2 command. -/
def outTag2 : Cmd2 → TypeTag
| .copy f _ _ => tagOfScalar f
| .copyChars _ _ _ => .chars260
| .copyFanSpeed _ _ _ => .f64
| .copyFrameTypeCmd _ _ _ => .e4
| .qpcDuration _ _ _ => .f64
| .qpcDifference _ _ _ _ _ _ _ => .f64
| .clickToPhoton _ _ => .f64
| .droppedCmd _ => .b8
| .startDifference _ _ _ => .f64
| .cpuFrameQpcCmd _ => .u64
| .cpuFrameQpcDifference _ _ _ _ => .f64
| .displayLatency _ _ => .f64
| .displayDifference2 _ _ => .f64
| .animationError2 _ _ => .f64
| .cpuFrameQpcFrameTime _ => .u64
| .gpuWaitCmd _ => .u64

/-- The `GetOutputOffset` member of a revision-2 command. -/
def outputOffset2 : Cmd2 → Nat
| .copy _ off _ => off
| .copyChars _ off _ => off
| .copyFanSpeed _ off _ => off
| .copyFrameTypeCmd _ off _ => off
| .qpcDuration _ off _ => off
| .qpcDifference _ _ _ _ _ off _ => off
| .clickToPhoton off _ => off
| .droppedCmd off => off
| .startDifference _ off _ => off
| .cpuFrameQpcCmd off => off
| .cpuFrameQpcDifference _ _ off _ => off
| .displayLatency off _ => off
| .displayDifference2 off _ => off
| .animationError2 off _ => off
| .cpuFrameQpcFrameTime off => off
| .gpuWaitCmd off => off

/-- The stored `outputPaddingSize_` of a revision-2 command. -/
def padOf2 : Cmd2 → Nat
| .copy _ _ pad => pad
| .copyChars _ _ pad => pad
| .copyFanSpeed _ _ pad => pad
| .copyFrameTypeCmd _ _ pad => pad
| .qpcDuration _ _ pad => pad
| .qpcDifference _ _ _ _ _ _ pad => pad
| .clickToPhoton _ pad => pad
| .droppedCmd _ => 0
| .startDifference _ _ pad => pad
| .cpuFrameQpcCmd _ => 0
| .cpuFrameQpcDifference _ _ _ pad => pad
| .displayLatency _ pad => pad
| .displayDifference2 _ pad => pad
| .animationError2 _ pad => pad
| .cpuFrameQpcFrameTime _ => 0
| .gpuWaitCmd _ => 0

/-- The `GetBeginOffset` member of revision 2. -/
def beginOffset2 (c : Cmd2) : Nat := outputOffset2 c - padOf2 c

/-- The `GetEndOffset` member of revision 2:
`outputOffset_ + alignof(OutputType)` in every class. -/
def endOffset2 (c : Cmd2) : Nat := outputOffset2 c + alignOfTag (outTag2 c)

/-- The `GetDataSize` member of revision 2. -/
def dataSize2 (c : Cmd2) : Nat := endOffset2 c - outputOffset2 c

/-- The `GetTotalSize` member of revision 2. -/
def totalSize2 (c : Cmd2) : Nat := endOffset2 c - beginOffset2 c

/-- The `MapQueryElementToGatherCommand_` switch of revision 2. -/
def map2 (m : PM_METRIC) (ai pos : Nat) : Option Cmd2 :=
  match m with
  | .PM_METRIC_APPLICATION => some (.copyChars 0 (alignedOff pos 1) (getPadding pos 1))
  | .PM_METRIC_GPU_MEM_SIZE => some (.copy .gpu_mem_total_size_b (alignedOff pos 8) (getPadding pos 8))
  | .PM_METRIC_GPU_MEM_MAX_BANDWIDTH => some (.copy .gpu_mem_max_bandwidth_bps (alignedOff pos 8) (getPadding pos 8))
  | .PM_METRIC_SWAP_CHAIN_ADDRESS => some (.copy .SwapChainAddress (alignedOff pos 8) (getPadding pos 8))
  | .PM_METRIC_GPU_BUSY => some (.qpcDuration .GPUDuration (alignedOff pos 8) (getPadding pos 8))
  | .PM_METRIC_DROPPED_FRAMES => some (.droppedCmd pos)
  | .PM_METRIC_PRESENT_MODE => some (.copy .PresentMode (alignedOff pos 4) (getPadding pos 4))
  | .PM_METRIC_PRESENT_RUNTIME => some (.copy .Runtime (alignedOff pos 4) (getPadding pos 4))
  | .PM_METRIC_CPU_START_QPC => some (.cpuFrameQpcCmd pos)
  | .PM_METRIC_ALLOWS_TEARING => some (.copy .SupportsTearing (alignedOff pos 1) (getPadding pos 1))
  | .PM_METRIC_FRAME_TYPE => some (.copyFrameTypeCmd 0 (alignedOff pos 4) (getPadding pos 4))
  | .PM_METRIC_SYNC_INTERVAL => some (.copy .SyncInterval (alignedOff pos 4) (getPadding pos 4))
  | .PM_METRIC_GPU_POWER => some (.copy .gpu_power_w (alignedOff pos 8) (getPadding pos 8))
  | .PM_METRIC_GPU_VOLTAGE => some (.copy .gpu_voltage_v (alignedOff pos 8) (getPadding pos 8))
  | .PM_METRIC_GPU_FREQUENCY => some (.copy .gpu_frequency_mhz (alignedOff pos 8) (getPadding pos 8))
  | .PM_METRIC_GPU_TEMPERATURE => some (.copy .gpu_temperature_c (alignedOff pos 8) (getPadding pos 8))
  | .PM_METRIC_GPU_FAN_SPEED => some (.copyFanSpeed ai (alignedOff pos 8) (getPadding pos 8))
  | .PM_METRIC_GPU_UTILIZATION => some (.copy .gpu_utilization (alignedOff pos 8) (getPadding pos 8))
  | .PM_METRIC_GPU_RENDER_COMPUTE_UTILIZATION => some (.copy .gpu_render_compute_utilization (alignedOff pos 8) (getPadding pos 8))
  | .PM_METRIC_GPU_MEDIA_UTILIZATION => some (.copy .gpu_media_utilization (alignedOff pos 8) (getPadding pos 8))
  | .PM_METRIC_GPU_MEM_POWER => some (.copy .vram_power_w (alignedOff pos 8) (getPadding pos 8))
  | .PM_METRIC_GPU_MEM_VOLTAGE => some (.copy .vram_voltage_v (alignedOff pos 8) (getPadding pos 8))
  | .PM_METRIC_GPU_MEM_FREQUENCY => some (.copy .vram_frequency_mhz (alignedOff pos 8) (getPadding pos 8))
  | .PM_METRIC_GPU_MEM_EFFECTIVE_FREQUENCY => some (.copy .vram_effective_frequency_gbps (alignedOff pos 8) (getPadding pos 8))
  | .PM_METRIC_GPU_MEM_TEMPERATURE => some (.copy .vram_temperature_c (alignedOff pos 8) (getPadding pos 8))
  | .PM_METRIC_GPU_MEM_USED => some (.copy .gpu_mem_used_b (alignedOff pos 8) (getPadding pos 8))
  | .PM_METRIC_GPU_MEM_WRITE_BANDWIDTH => some (.copy .gpu_mem_write_bandwidth_bps (alignedOff pos 8) (getPadding pos 8))
  | .PM_METRIC_GPU_MEM_READ_BANDWIDTH => some (.copy .gpu_mem_read_bandwidth_bps (alignedOff pos 8) (getPadding pos 8))
  | .PM_METRIC_GPU_POWER_LIMITED => some (.copy .gpu_power_limited (alignedOff pos 1) (getPadding pos 1))
  | .PM_METRIC_GPU_TEMPERATURE_LIMITED => some (.copy .gpu_temperature_limited (alignedOff pos 1) (getPadding pos 1))
  | .PM_METRIC_GPU_CURRENT_LIMITED => some (.copy .gpu_current_limited (alignedOff pos 1) (getPadding pos 1))
  | .PM_METRIC_GPU_VOLTAGE_LIMITED => some (.copy .gpu_voltage_limited (alignedOff pos 1) (getPadding pos 1))
  | .PM_METRIC_GPU_UTILIZATION_LIMITED => some (.copy .gpu_utilization_limited (alignedOff pos 1) (getPadding pos 1))
  | .PM_METRIC_GPU_MEM_POWER_LIMITED => some (.copy .vram_power_limited (alignedOff pos 1) (getPadding pos 1))
  | .PM_METRIC_GPU_MEM_TEMPERATURE_LIMITED => some (.copy .vram_temperature_limited (alignedOff pos 1) (getPadding pos 1))
  | .PM_METRIC_GPU_MEM_CURRENT_LIMITED => some (.copy .vram_current_limited (alignedOff pos 1) (getPadding pos 1))
  | .PM_METRIC_GPU_MEM_VOLTAGE_LIMITED => some (.copy .vram_voltage_limited (alignedOff pos 1) (getPadding pos 1))
  | .PM_METRIC_GPU_MEM_UTILIZATION_LIMITED => some (.copy .vram_utilization_limited (alignedOff pos 1) (getPadding pos 1))
  | .PM_METRIC_CPU_UTILIZATION => some (.copy .cpu_utilization (alignedOff pos 8) (getPadding pos 8))
  | .PM_METRIC_CPU_POWER => some (.copy .cpu_power_w (alignedOff pos 8) (getPadding pos 8))
  | .PM_METRIC_CPU_TEMPERATURE => some (.copy .cpu_temperature (alignedOff pos 8) (getPadding pos 8))
  | .PM_METRIC_CPU_FREQUENCY => some (.copy .cpu_frequency (alignedOff pos 8) (getPadding pos 8))
  | .PM_METRIC_PRESENT_FLAGS => some (.copy .PresentFlags (alignedOff pos 4) (getPadding pos 4))
  | .PM_METRIC_CPU_START_TIME => some (.startDifference .PresentStartTime (alignedOff pos 8) (getPadding pos 8))
  | .PM_METRIC_CPU_FRAME_TIME => some (.cpuFrameQpcFrameTime pos)
  | .PM_METRIC_CPU_BUSY => some (.cpuFrameQpcDifference .PresentStartTime false (alignedOff pos 8) (getPadding pos 8))
  | .PM_METRIC_CPU_WAIT => some (.qpcDuration .TimeInPresent (alignedOff pos 8) (getPadding pos 8))
  | .PM_METRIC_GPU_TIME => some (.qpcDifference .GPUStartTime .ReadyTime false false false (alignedOff pos 8) (getPadding pos 8))
  | .PM_METRIC_GPU_WAIT => some (.gpuWaitCmd pos)
  | .PM_METRIC_DISPLAYED_TIME => some (.displayDifference2 (alignedOff pos 8) (getPadding pos 8))
  | .PM_METRIC_ANIMATION_ERROR => some (.animationError2 (alignedOff pos 8) (getPadding pos 8))
  | .PM_METRIC_GPU_LATENCY => some (.cpuFrameQpcDifference .GPUStartTime false (alignedOff pos 8) (getPadding pos 8))
  | .PM_METRIC_DISPLAY_LATENCY => some (.displayLatency (alignedOff pos 8) (getPadding pos 8))
  | .PM_METRIC_CLICK_TO_PHOTON_LATENCY => some (.clickToPhoton (alignedOff pos 8) (getPadding pos 8))
  | .PM_METRIC_CPU_VENDOR => none
  | .PM_METRIC_GPU_VENDOR => none

/-- Whether a metric is in the supported mapping of revision 2. -/
def supported2 (m : PM_METRIC) : Bool :=
  match m with
  | .PM_METRIC_CPU_VENDOR => false
  | .PM_METRIC_GPU_VENDOR => false
  | _ => true

/-- The `Gather` member of each revision-2 command. -/
def gather2 (c : Cmd2) (ctx : Ctx2) : Wr :=
  let fd := ctx.pSourceFrameData
  let period := ctx.performanceCounterPeriodMs
  match c with
  | .copy f off _ => ⟨off, sizeOfTag (tagOfScalar f), readScalar fd f⟩
  | .copyChars idx off _ =>
      let s := strcpyChars fd.present_event.application idx
      ⟨off, s.length + 1, .bytes s⟩
  | .copyFanSpeed idx off _ => ⟨off, 8, .num (fd.power_telemetry.fan_speed_rpm idx)⟩
  | .copyFrameTypeCmd _ off _ =>
      ⟨off, 4, .word (fd.present_event.Displayed_FrameType ctx.sourceFrameDisplayIndex)⟩
  | .qpcDuration m off _ =>
      let d := readPreU64 fd m
      if d ≠ 0 then ⟨off, 8, .num (period * (d : ℚ))⟩ else ⟨off, 8, .num 0⟩
  | .qpcDifference ps pe doZeroCheck doDroppedCheck allowNegative off _ =>
      if doDroppedCheck ∧ ctx.dropped then ⟨off, 8, .nan⟩
      else
        let start := readPreU64 fd ps
        if doZeroCheck ∧ start = 0 then ⟨off, 8, .nan⟩
        else if allowNegative then
          ⟨off, 8, .num (period * ((readPreU64 fd pe : ℚ) - (start : ℚ)))⟩
        else
          ⟨off, 8, .num (timestampDeltaToUnsignedMilliSeconds start (readPreU64 fd pe) period)⟩
  | .clickToPhoton off _ =>
      if ctx.dropped then ⟨off, 8, .nan⟩
      else if fd.present_event.InputTime = 0 then ⟨off, 8, .nan⟩
      else
        ⟨off, 8, .num (timestampDeltaToUnsignedMilliSeconds fd.present_event.InputTime
          (fd.present_event.Displayed_ScreenTime ctx.sourceFrameDisplayIndex) period)⟩
  | .droppedCmd off => ⟨off, 1, .bitv ctx.dropped⟩
  | .startDifference pe off _ =>
      ⟨off, 8, .num (period * (sub64 (readPreU64 fd pe) ctx.qpcStart : ℚ))⟩
  | .cpuFrameQpcCmd off => ⟨off, 8, .word ctx.cpuFrameQpc⟩
  | .cpuFrameQpcDifference pe doDroppedCheck off _ =>
      if doDroppedCheck ∧ ctx.dropped then ⟨off, 8, .nan⟩
      else ⟨off, 8, .num (timestampDeltaToUnsignedMilliSeconds ctx.cpuFrameQpc (readPreU64 fd pe) period)⟩
  | .displayLatency off _ =>
      if ctx.dropped then ⟨off, 8, .nan⟩
      else
        ⟨off, 8, .num (timestampDeltaToUnsignedMilliSeconds ctx.cpuFrameQpc
          (fd.present_event.Displayed_ScreenTime ctx.sourceFrameDisplayIndex) period)⟩
  | .displayDifference2 off _ =>
      if ctx.dropped then ⟨off, 8, .nan⟩
      else
        let screenTime := fd.present_event.Displayed_ScreenTime ctx.sourceFrameDisplayIndex
        let nextScreenTime :=
          if ctx.sourceFrameDisplayIndex = sub32 fd.present_event.DisplayedCount 1
          then ctx.nextDisplayedQpc
          else fd.present_event.Displayed_ScreenTime (ctx.sourceFrameDisplayIndex + 1)
        let v := timestampDeltaToUnsignedMilliSeconds screenTime nextScreenTime period
        if v = 0 then ⟨off, 8, .nan⟩ else ⟨off, 8, .num v⟩
  | .animationError2 off _ =>
      if ctx.dropped then ⟨off, 8, .nan⟩
      else if ctx.previousDisplayedCpuStartQpc = 0 then ⟨off, 8, .nan⟩
      else
        let screenTime := fd.present_event.Displayed_ScreenTime ctx.sourceFrameDisplayIndex
        ⟨off, 8, .num (timestampDeltaToSignedMilliSeconds
          (sub64 screenTime ctx.previousDisplayedQpc)
          (sub64 ctx.cpuFrameQpc ctx.previousDisplayedCpuStartQpc) period)⟩
  | .cpuFrameQpcFrameTime off =>
      let qpcDuration := wrap64 (sub64 fd.present_event.PresentStartTime ctx.cpuFrameQpc
        + fd.present_event.TimeInPresent)
      ⟨off, 8, .num (period * (qpcDuration : ℚ))⟩
  | .gpuWaitCmd off =>
      let gpuDuration := timestampDeltaToUnsignedMilliSeconds fd.present_event.GPUStartTime fd.present_event.ReadyTime period
      let gpuBusy := timestampDeltaToMilliSeconds fd.present_event.GPUDuration period
      ⟨off, 8, .num (max 0 (gpuDuration - gpuBusy))⟩

/-- Failure modes of the revision-2 `PM_FRAME_QUERY` constructor: the
duplicate-device throw, and the fault incurred on an unknown metric (the
`default:` branch returns an empty `unique_ptr`, which the loop pushes and
immediately dereferences via `cmd->GetDataSize()`). -/
inductive CompileError2
| duplicateDevice
| nullCommandFault
deriving DecidableEq

/-- The element loop of the revision-2 `PM_FRAME_QUERY` constructor. Unlike
revision 1 it pushes the mapped command unconditionally, so an unknown
metric dereferences a null command pointer: modelled as the
`nullCommandFault` error. -/
def compileAux2 : List PM_QUERY_ELEMENT → Nat → Option Nat →
    Except CompileError2 (List (PM_QUERY_ELEMENT × Cmd2) × Nat × Option Nat)
  | [], blob, ref => .ok ([], blob, ref)
  | q :: qs, blob, ref =>
    match devStep .duplicateDevice q ref with
    | .error e => .error e
    | .ok ref1 =>
      match map2 q.metric q.arrayIndex blob with
      | some cmd =>
        match compileAux2 qs (blob + totalSize2 cmd) ref1 with
        | .error e => .error e
        | .ok (zs, bF, rF) =>
          .ok (({ q with dataOffset := outputOffset2 cmd, dataSize := dataSize2 cmd },
                cmd) :: zs, bF, rF)
      | none => .error .nullCommandFault

/-- The compiled revision-2 `PM_FRAME_QUERY`. -/
structure FrameQuery2 where
  elements : List (PM_QUERY_ELEMENT × Cmd2)
  blobSize : Nat
  referencedDevice : Option Nat
deriving DecidableEq

/-- The revision-2 `PM_FRAME_QUERY` constructor. -/
def compile2 (qs : List PM_QUERY_ELEMENT) : Except CompileError2 FrameQuery2 :=
  match compileAux2 qs 0 none with
  | .error e => .error e
  | .ok (zs, blob, ref) => .ok ⟨zs, blob + getPadding blob 16, ref⟩

/-- The `gatherCommands_` vector of a compiled revision-2 query. -/
def gatherCommands2 (fq : FrameQuery2) : List Cmd2 := fq.elements.map (·.2)

/-- The revision-2 `PM_FRAME_QUERY::GatherToBlob`. -/
def gatherToBlob2 (fq : FrameQuery2) (ctx : Ctx2) : List Wr :=
  (gatherCommands2 fq).map (fun c => gather2 c ctx)

/-- The revision-2 `PM_FRAME_QUERY::Context::UpdateSourceData`. This revision
dereferences `pFrameDataOfLastPresented` and `pFrameDataOfNextDisplayed`
unconditionally, so a null value for either faults (modelled as `none`); the
last-displayed and previous-of-last-displayed neighbours are null-checked and
yield 0 when absent. -/
def updateSourceData2 (ctx : Ctx2) (src : PmNsmFrameData)
    (pFrameDataOfNextDisplayed pFrameDataOfLastPresented
     pFrameDataOfLastDisplayed pPreviousFrameDataOfLastDisplayed :
       Option PmNsmFrameData) : Option Ctx2 :=
  match pFrameDataOfLastPresented, pFrameDataOfNextDisplayed with
  | some lp, some nd =>
    some { ctx with
      pSourceFrameData := src
      sourceFrameDisplayIndex := 0
      dropped := src.present_event.FinalState != PresentResult.Presented
      cpuFrameQpc := wrap64 (lp.present_event.PresentStartTime + lp.present_event.TimeInPresent)
      nextDisplayedQpc := nd.present_event.Displayed_ScreenTime 0
      previousDisplayedQpc :=
        match pFrameDataOfLastDisplayed with
        | some ld =>
          if ld.present_event.DisplayedCount > 0
          then ld.present_event.Displayed_ScreenTime (ld.present_event.DisplayedCount - 1)
          else 0
        | none => 0
      previousDisplayedCpuStartQpc :=
        match pPreviousFrameDataOfLastDisplayed with
        | some pld => wrap64 (pld.present_event.PresentStartTime + pld.present_event.TimeInPresent)
        | none => 0 }
  | _, _ => none

/-!
Session and parameter broker. The broker implementation is not among the
provided sources; its observable behaviour is pinned down by
`IntelPresentMon/PresentMonAPI2Tests/MultiClientTests.cpp`, whose status
assertions are transcribed below as traces.
-/

/-- Modelled from the spec: a connected client session's optional parameter
requests (spec section 4.4 / data model section 3). Session lists are always
ordered oldest connection first. -/
structure ClientSession where
  clientId : Nat
  requestedTelemetryPeriodMs : Option Nat
  requestedEtwFlushPeriodMs : Option Nat
deriving DecidableEq

/-- Default telemetry sampling period (ms) when no session requests one. -/
def defaultTelemetryPeriodMs : Nat := 16

/-- Default event-flush period (ms) when no session requests one. -/
def defaultEtwFlushPeriodMs : Nat := 1000

/-- Modelled from the spec: the first-writer-wins arbitration rule that spec
section 4.4 states for the telemetry sampling period — the oldest
still-connected session with a non-null request determines the effective
value, the default applying when none remains. -/
def effectiveTelemetryFirstWriter (ss : List ClientSession) : Nat :=
  match ss.filterMap (·.requestedTelemetryPeriodMs) with
  | [] => defaultTelemetryPeriodMs
  | r :: _ => r

/-- Minimum of a request list, with a default for the empty case. -/
def minRequest (rs : List Nat) (d : Nat) : Nat :=
  match rs.min? with
  | some m => m
  | none => d

/-- Smallest-value-wins arbitration applied to the telemetry sampling
period: the minimum of all connected sessions' non-null requests, default
16 ms when none. -/
def effectiveTelemetryMin (ss : List ClientSession) : Nat :=
  minRequest (ss.filterMap (·.requestedTelemetryPeriodMs)) defaultTelemetryPeriodMs

/-- Modelled from the spec: smallest-value-wins arbitration for the
event-flush period (spec section 4.4) — the minimum of all connected
sessions' non-null requests, default 1000 ms when none. -/
def effectiveEtwFlushPeriod (ss : List ClientSession) : Nat :=
  minRequest (ss.filterMap (·.requestedEtwFlushPeriodMs)) defaultEtwFlushPeriodMs

/-- One status query recorded in the multi-client tests: the sessions
connected at that moment (oldest first) and the effective value the test
asserts the service reports. -/
structure BrokerStep where
  sessions : List ClientSession
  expected : Nat
deriving DecidableEq

/-- A session connected with `--telemetry-period-ms req`. -/
def sessionT (id req : Nat) : ClientSession := ⟨id, some req, none⟩

/-- A session connected with `--etw-flush-period-ms req`. -/
def sessionF (id req : Nat) : ClientSession := ⟨id, none, some req⟩

/-- The telemetry-period status assertions of `MultiClientTests.cpp`, in
test order: `ServiceStatusTest` (no clients), `OneClientSetting`,
`SecondClientSuperseded`, `SecondClientOverrides`, `TwoClientReversion`,
and `ClientMurderReversion`. -/
def telemetryPeriodTestSteps : List BrokerStep := [
  ⟨[], 16⟩,
  ⟨[sessionT 1 63], 63⟩,
  ⟨[sessionT 1 63], 63⟩, ⟨[sessionT 1 63, sessionT 2 135], 63⟩,
  ⟨[sessionT 1 63], 63⟩, ⟨[sessionT 1 63, sessionT 2 36], 36⟩,
  ⟨[sessionT 1 63], 63⟩, ⟨[sessionT 1 63, sessionT 2 36], 36⟩, ⟨[sessionT 1 63], 63⟩, ⟨[], 16⟩,
  ⟨[sessionT 1 63], 63⟩, ⟨[sessionT 1 63, sessionT 2 36], 36⟩, ⟨[sessionT 1 63], 63⟩, ⟨[], 16⟩]

/-- The flush-period status assertions of `MultiClientTests.cpp`, in test
order: `ServiceStatusTest`, `OneClientSetting`, `SecondClientSuperseded`,
`SecondClientOverrides`, `TwoClientReversion`, `ClientMurderReversion`. -/
def etwFlushPeriodTestSteps : List BrokerStep := [
  ⟨[], 1000⟩,
  ⟨[sessionF 1 50], 50⟩,
  ⟨[sessionF 1 50], 50⟩, ⟨[sessionF 1 50, sessionF 2 65], 50⟩,
  ⟨[sessionF 1 50], 50⟩, ⟨[sessionF 1 50, sessionF 2 35], 35⟩,
  ⟨[sessionF 1 50], 50⟩, ⟨[sessionF 1 50, sessionF 2 35], 35⟩, ⟨[sessionF 1 50], 50⟩, ⟨[], 1000⟩,
  ⟨[sessionF 1 50], 50⟩, ⟨[sessionF 1 50, sessionF 2 35], 35⟩, ⟨[sessionF 1 50], 50⟩, ⟨[], 1000⟩]

/-!
Concrete fixtures used by counterexamples and witnesses.
-/

/-- Power-telemetry record with all quantities zero. -/
def zeroPower : PresentMonPowerTelemetryInfo where
  gpu_power_w := 0
  gpu_voltage_v := 0
  gpu_frequency_mhz := 0
  gpu_temperature_c := 0
  fan_speed_rpm := fun _ => 0
  gpu_utilization := 0
  gpu_render_compute_utilization := 0
  gpu_media_utilization := 0
  vram_power_w := 0
  vram_voltage_v := 0
  vram_frequency_mhz := 0
  vram_effective_frequency_gbps := 0
  vram_temperature_c := 0
  gpu_mem_total_size_b := 0
  gpu_mem_used_b := 0
  gpu_mem_max_bandwidth_bps := 0
  gpu_mem_write_bandwidth_bps := 0
  gpu_mem_read_bandwidth_bps := 0
  gpu_power_limited := false
  gpu_temperature_limited := false
  gpu_current_limited := false
  gpu_voltage_limited := false
  gpu_utilization_limited := false
  vram_power_limited := false
  vram_temperature_limited := false
  vram_current_limited := false
  vram_voltage_limited := false
  vram_utilization_limited := false

/-- A frame record whose application-name buffer holds the two-character
string made of byte codes 65 and 66, everything else zeroed, presented. -/
def fdAB : PmNsmFrameData where
  present_event :=
    { application := [65, 66, 0]
      SwapChainAddress := 0
      PresentMode := 0
      Runtime := 0
      SupportsTearing := false
      FrameType := 0
      SyncInterval := 0
      PresentFlags := 0
      PresentStartTime := 0
      TimeInPresent := 0
      GPUStartTime := 0
      ReadyTime := 0
      GPUDuration := 0
      ScreenTime := 0
      InputTime := 0
      FinalState := .Presented
      Displayed_ScreenTime := fun _ => 0
      Displayed_FrameType := fun _ => 0
      DisplayedCount := 1 }
  power_telemetry := zeroPower
  cpu_telemetry := ⟨0, 0, 0, 0⟩

/-- Revision-1 context for a dropped frame, unit counter period. -/
def ctx1Dropped : Ctx1 := ⟨fdAB, true, 0, 0, 0, 0, 0, 1⟩

/-- Revision-1 context for a presented (non-dropped) frame. -/
def ctx1Live : Ctx1 := ⟨fdAB, false, 0, 0, 0, 0, 0, 1⟩

/-- Revision-2 context for a dropped frame. -/
def ctx2Dropped : Ctx2 := ⟨fdAB, 0, true, 0, 0, 0, 0, 0, 1⟩

/-- Revision-2 context for a presented frame whose
`previousDisplayedCpuStartQpc` is zero. -/
def ctx2ZeroPrev : Ctx2 := ⟨fdAB, 0, false, 0, 0, 0, 0, 0, 1⟩

/-- Query element for a metric with universal device and zero array index. -/
def qe (m : PM_METRIC) : PM_QUERY_ELEMENT := ⟨m, 0, 0, 0, 0⟩

/-- Query element for a metric bound to a specific device id. -/
def qeDev (m : PM_METRIC) (d : Nat) : PM_QUERY_ELEMENT := ⟨m, d, 0, 0, 0⟩

/-- The five-latency-metric query of scenario E7. -/
def e7Query : List PM_QUERY_ELEMENT :=
  [qe .PM_METRIC_GPU_LATENCY, qe .PM_METRIC_DISPLAY_LATENCY,
   qe .PM_METRIC_CLICK_TO_PHOTON_LATENCY, qe .PM_METRIC_DISPLAYED_TIME,
   qe .PM_METRIC_ANIMATION_ERROR]

/-- Fifteen one-byte dropped-flag elements followed by the application-name
element: the application copy lands at offset 15 of a 16-byte blob. -/
def appLastQuery : List PM_QUERY_ELEMENT :=
  List.replicate 15 (qe .PM_METRIC_DROPPED_FRAMES) ++ [qe .PM_METRIC_APPLICATION]

/-!
Auxiliary definitions used by the verification statements.
-/

deriving instance DecidableEq for Except

instance : Inhabited FrameQuery1 := ⟨⟨[], 0, none⟩⟩

instance : Inhabited FrameQuery2 := ⟨⟨[], 0, none⟩⟩

/-- Whether an `Except` result is a success. -/
def exceptIsOk {ε α : Type} : Except ε α → Bool
| .ok _ => true
| .error _ => false

/-- The non-zero device ids mentioned by a query, in element order. -/
def nonzeroDevs (qs : List PM_QUERY_ELEMENT) : List Nat :=
  (qs.map (·.deviceId)).filter (fun d => d != 0)

/-- The query contains two different non-zero device ids. -/
def hasConflict (qs : List PM_QUERY_ELEMENT) : Prop :=
  ∃ a ∈ qs, ∃ b ∈ qs, a.deviceId ≠ 0 ∧ b.deviceId ≠ 0 ∧ a.deviceId ≠ b.deviceId

instance (qs : List PM_QUERY_ELEMENT) : Decidable (hasConflict qs) := by
  unfold hasConflict; infer_instance

/-- The device-id scan performed by the compile loops, abstracted from the
element walk: `true` means the walk completes without the duplicate-device
throw, threading the running referenced device. -/
def devScan : List Nat → Option Nat → Bool
  | [], _ => true
  | d :: ds, r =>
    if d ≠ 0 then
      match r with
      | none => devScan ds (some d)
      | some r0 => if r0 ≠ d then false else devScan ds (some r0)
    else devScan ds r

/-- The metrics whose gather commands carry the dropped-check flag in both
revisions (every E7 metric except `PM_METRIC_GPU_LATENCY`). -/
def droppedNanMetrics : List PM_METRIC :=
  [.PM_METRIC_DISPLAY_LATENCY, .PM_METRIC_CLICK_TO_PHOTON_LATENCY,
   .PM_METRIC_DISPLAYED_TIME, .PM_METRIC_ANIMATION_ERROR]

/-!
Verification lemmas.
-/

theorem add_getPadding_16 (b : Nat) : (b + getPadding b 16) % 16 = 0 := by
  unfold getPadding; omega

theorem scalar_size_eq_align (f : ScalarField) :
    sizeOfTag (tagOfScalar f) = alignOfTag (tagOfScalar f) := by
  cases f <;> rfl

theorem map1_offsets (m : PM_METRIC) (ai pos : Nat) (cmd : Cmd1)
    (h : map1 m ai pos = some cmd) :
    beginOffset1 cmd = pos ∧ endOffset1 cmd = pos + totalSize1 cmd := by
  cases m <;> simp only [map1] at h <;>
    first
    | exact Option.noConfusion h
    | (injection h with h; subst h;
       refine ⟨?_, ?_⟩ <;>
         simp [beginOffset1, outputOffset1, padOf1, endOffset1, totalSize1, outTag1,
           alignedOff, alignOfTag, tagOfScalar, getPadding] <;> omega)

theorem gather1_off (c : Cmd1) (ctx : Ctx1) : (gather1 c ctx).off = outputOffset1 c := by
  cases c <;> simp only [gather1, outputOffset1] <;> split_ifs <;> rfl

theorem gather1_len (c : Cmd1) (ctx : Ctx1) (h : isCharsCmd1 c = false) :
    (gather1 c ctx).len = alignOfTag (outTag1 c) := by
  cases c <;> simp only [isCharsCmd1] at h <;>
    first
    | exact Bool.noConfusion h
    | exact scalar_size_eq_align _
    | (simp only [gather1, outTag1]; split_ifs <;> rfl)
    | rfl

theorem devStep_ok {ε : Type} (dup : ε) (q : PM_QUERY_ELEMENT) (ref ref1 : Option Nat)
    (h : devStep dup q ref = .ok ref1) :
    (q.deviceId = 0 ∧ ref1 = ref) ∨
    (q.deviceId ≠ 0 ∧ ref = none ∧ ref1 = some q.deviceId) ∨
    (q.deviceId ≠ 0 ∧ ref = some q.deviceId ∧ ref1 = some q.deviceId) := by
  unfold devStep at h
  split at h
  · rename_i h0
    split at h
    · injection h with h
      exact Or.inr (Or.inl ⟨h0, rfl, h.symm⟩)
    · rename_i d
      split at h
      · exact absurd h (by simp)
      · rename_i h1
        simp only [Decidable.not_not] at h1
        subst h1
        injection h with h
        exact Or.inr (Or.inr ⟨h0, rfl, h.symm⟩)
  · rename_i h0
    simp only [Decidable.not_not] at h0
    injection h with h
    exact Or.inl ⟨h0, h.symm⟩

theorem compileAux1_le (qs : List PM_QUERY_ELEMENT) :
    ∀ (blob : Nat) (ref : Option Nat) out,
    compileAux1 qs blob ref = .ok out → blob ≤ out.2.1 := by
  induction qs with
  | nil =>
    intro blob ref out H
    simp only [compileAux1] at H
    injection H with H
    subst H
    exact Nat.le_refl _
  | cons q qs ih =>
    intro blob ref out H
    simp only [compileAux1] at H
    split at H
    · exact absurd H (by simp)
    · split at H
      · split at H
        · exact absurd H (by simp)
        · rename_i hrec
          injection H with H
          subst H
          have h2 := ih _ _ _ hrec
          simp only at h2 ⊢
          omega
      · split at H
        · exact absurd H (by simp)
        · rename_i hrec
          injection H with H
          subst H
          have h2 := ih _ _ _ hrec
          exact h2

theorem map1_isSome (m : PM_METRIC) (ai pos : Nat) :
    (map1 m ai pos).isSome = supported1 m := by
  cases m <;> rfl

theorem compileAux1_entries (qs : List PM_QUERY_ELEMENT) :
    ∀ blob ref out, compileAux1 qs blob ref = .ok out →
    ∀ p ∈ out.1,
      (∀ cmd, p.2 = some cmd →
        blob ≤ beginOffset1 cmd ∧ endOffset1 cmd ≤ out.2.1 ∧
        p.1.dataOffset = outputOffset1 cmd ∧ p.1.dataSize = dataSize1 cmd ∧
        ∃ pos, map1 p.1.metric p.1.arrayIndex pos = some cmd) ∧
      (p.2 = none → p.1 ∈ qs ∧ supported1 p.1.metric = false) := by
  induction qs with
  | nil =>
    intro blob ref out H
    simp only [compileAux1] at H
    injection H with H
    subst H
    intro p hp
    exact absurd hp (by simp)
  | cons q qs ih =>
    intro blob ref out H
    simp only [compileAux1] at H
    split at H
    · exact absurd H (by simp)
    · split at H
      · split at H
        · exact absurd H (by simp)
        · rename_i cmd hmap xs zs bF rF hrec
          injection H with H
          subst H
          intro p hp
          simp only [List.mem_cons] at hp
          cases hp with
          | inl hp =>
            subst hp
            constructor
            · intro cmd1 hc
              injection hc with hc
              subst hc
              obtain ⟨hb, he⟩ := map1_offsets _ _ _ _ hmap
              have hle : blob + totalSize1 cmd ≤ bF := compileAux1_le _ _ _ _ hrec
              refine ⟨by omega, by show endOffset1 cmd ≤ bF; omega, rfl, rfl, blob, ?_⟩
              simpa using hmap
            · intro hc
              exact absurd hc (by simp)
          | inr hp =>
            have h2 := ih _ _ _ hrec p hp
            constructor
            · intro cmd1 hc
              obtain ⟨hb, he, h3, h4, h5⟩ := (h2.1) cmd1 hc
              have he2 : endOffset1 cmd1 ≤ bF := he
              refine ⟨by omega, he2, h3, h4, h5⟩
            · intro hc
              obtain ⟨hmem, hsup⟩ := h2.2 hc
              exact ⟨List.mem_cons_of_mem _ hmem, hsup⟩
      · split at H
        · exact absurd H (by simp)
        · rename_i hmap xs zs bF rF hrec
          injection H with H
          subst H
          intro p hp
          simp only [List.mem_cons] at hp
          cases hp with
          | inl hp =>
            subst hp
            constructor
            · intro cmd1 hc
              exact absurd hc (by simp)
            · intro hc
              refine ⟨List.mem_cons_self _ _, ?_⟩
              have h3 := map1_isSome q.metric q.arrayIndex blob
              rw [hmap] at h3
              exact h3.symm
          | inr hp =>
            have h2 := ih _ _ _ hrec p hp
            constructor
            · intro cmd1 hc
              obtain ⟨hb, he, h3, h4, h5⟩ := (h2.1) cmd1 hc
              have he2 : endOffset1 cmd1 ≤ bF := he
              exact ⟨hb, he2, h3, h4, h5⟩
            · intro hc
              obtain ⟨hmem, hsup⟩ := h2.2 hc
              exact ⟨List.mem_cons_of_mem _ hmem, hsup⟩

theorem map2_offsets (m : PM_METRIC) (ai pos : Nat) (cmd : Cmd2)
    (h : map2 m ai pos = some cmd) :
    beginOffset2 cmd = pos ∧ endOffset2 cmd = pos + totalSize2 cmd := by
  cases m <;> simp only [map2] at h <;>
    first
    | exact Option.noConfusion h
    | (injection h with h; subst h;
       refine ⟨?_, ?_⟩ <;>
         simp [beginOffset2, outputOffset2, padOf2, endOffset2, totalSize2, outTag2,
           alignedOff, alignOfTag, tagOfScalar, getPadding] <;> omega)

theorem map2_isSome (m : PM_METRIC) (ai pos : Nat) :
    (map2 m ai pos).isSome = supported2 m := by
  cases m <;> rfl

theorem gather2_off (c : Cmd2) (ctx : Ctx2) : (gather2 c ctx).off = outputOffset2 c := by
  cases c <;> simp only [gather2, outputOffset2] <;> split_ifs <;> rfl

theorem compileAux2_entries (qs : List PM_QUERY_ELEMENT) :
    ∀ blob ref out, compileAux2 qs blob ref = .ok out →
    ∀ p ∈ out.1,
      p.1.dataOffset = outputOffset2 p.2 ∧ p.1.dataSize = dataSize2 p.2 ∧
      ∃ pos, map2 p.1.metric p.1.arrayIndex pos = some p.2 := by
  induction qs with
  | nil =>
    intro blob ref out H
    simp only [compileAux2] at H
    injection H with H
    subst H
    intro p hp
    exact absurd hp (by simp)
  | cons q qs ih =>
    intro blob ref out H
    simp only [compileAux2] at H
    split at H
    · exact absurd H (by simp)
    · split at H
      · split at H
        · exact absurd H (by simp)
        · rename_i cmd hmap xs zs bF rF hrec
          injection H with H
          subst H
          intro p hp
          simp only [List.mem_cons] at hp
          cases hp with
          | inl hp =>
            subst hp
            exact ⟨rfl, rfl, blob, by simpa using hmap⟩
          | inr hp =>
            exact ih _ _ _ hrec p hp
      · exact absurd H (by simp)

theorem compileAux2_unsupported (qs : List PM_QUERY_ELEMENT) :
    ∀ blob ref, (∃ q ∈ qs, supported2 q.metric = false) →
    exceptIsOk (compileAux2 qs blob ref) = false := by
  induction qs with
  | nil =>
    intro blob ref h
    exact absurd h (by simp)
  | cons q qs ih =>
    intro blob ref h
    simp only [compileAux2]
    split
    · rfl
    · rename_i ref1 hdev
      cases hmap : map2 q.metric q.arrayIndex blob with
      | none =>
        simp only [hmap]
        rfl
      | some cmd =>
        simp only [hmap]
        have hq : supported2 q.metric = true := by
          have h2 := map2_isSome q.metric q.arrayIndex blob
          rw [hmap] at h2
          exact h2.symm
        have hex : ∃ r ∈ qs, supported2 r.metric = false := by
          obtain ⟨r, hr, hrs⟩ := h
          simp only [List.mem_cons] at hr
          cases hr with
          | inl hr => subst hr; rw [hq] at hrs; exact absurd hrs (by simp)
          | inr hr => exact ⟨r, hr, hrs⟩
        have h3 := ih (blob + totalSize2 cmd) ref1 hex
        cases hrec : compileAux2 qs (blob + totalSize2 cmd) ref1 with
        | error e => simp only [hrec]; rfl
        | ok out2 =>
          rw [hrec] at h3
          exact absurd h3 (by simp [exceptIsOk])

theorem compileAux2_dup (qs : List PM_QUERY_ELEMENT) :
    ∀ blob ref, compileAux2 qs blob ref = .error .duplicateDevice →
    (∀ r0, ref = some r0 → ∃ q ∈ qs, q.deviceId ≠ 0 ∧ q.deviceId ≠ r0) ∧
    (ref = none → hasConflict qs) := by
  induction qs with
  | nil =>
    intro blob ref H
    simp only [compileAux2] at H
    exact absurd H (by simp)
  | cons q qs ih =>
    intro blob ref H
    simp only [compileAux2] at H
    split at H
    · rename_i e hdev
      injection H with H
      subst H
      unfold devStep at hdev
      split at hdev
      · rename_i h0
        split at hdev
        · exact absurd hdev (by simp)
        · rename_i d
          split at hdev
          · rename_i h1
            constructor
            · intro r0 hr
              injection hr with hr
              subst hr
              exact ⟨q, List.mem_cons_self _ _, h0, fun hc => h1 hc.symm⟩
            · intro hr
              exact absurd hr (by simp)
          · exact absurd hdev (by simp)
      · exact absurd hdev (by simp)
    · rename_i ref1 hdev
      split at H
      · rename_i cmd hmap
        split at H
        · rename_i e hrec
          injection H with H
          subst H
          have h2 := ih _ _ hrec
          rcases devStep_ok _ _ _ _ hdev with ⟨h0, hr⟩ | ⟨h0, hrn, hr1⟩ | ⟨h0, hrs, hr1⟩
          · subst hr
            constructor
            · intro r0 hr0
              obtain ⟨r, hm, ha, hb⟩ := h2.1 r0 hr0
              exact ⟨r, List.mem_cons_of_mem _ hm, ha, hb⟩
            · intro hr0
              obtain ⟨a, hma, b, hmb, hcon⟩ := h2.2 hr0
              exact ⟨a, List.mem_cons_of_mem _ hma, b, List.mem_cons_of_mem _ hmb, hcon⟩
          · subst hrn
            subst hr1
            constructor
            · intro r0 hr0
              exact absurd hr0 (by simp)
            · intro _
              obtain ⟨r, hm, ha, hb⟩ := h2.1 q.deviceId rfl
              exact ⟨q, List.mem_cons_self _ _, r, List.mem_cons_of_mem _ hm, h0, ha,
                fun hc => hb hc.symm⟩
          · subst hrs
            subst hr1
            constructor
            · intro r0 hr0
              injection hr0 with hr0
              subst hr0
              obtain ⟨r, hm, ha, hb⟩ := h2.1 q.deviceId rfl
              exact ⟨r, List.mem_cons_of_mem _ hm, ha, hb⟩
            · intro hr0
              exact absurd hr0 (by simp)
        · exact absurd H (by simp)
      · injection H with H
        exact absurd H (by simp)

theorem devStep_error {ε : Type} (dup : ε) (q : PM_QUERY_ELEMENT) (ref : Option Nat) (e : ε)
    (h : devStep dup q ref = .error e) :
    q.deviceId ≠ 0 ∧ e = dup ∧ ∃ r0, ref = some r0 ∧ r0 ≠ q.deviceId := by
  unfold devStep at h
  split at h
  · rename_i h0
    split at h
    · exact absurd h (by simp)
    · rename_i d
      split at h
      · rename_i h1
        injection h with h
        exact ⟨h0, h.symm, d, rfl, h1⟩
      · exact absurd h (by simp)
  · exact absurd h (by simp)

theorem compileAux1_cons_ok (q : PM_QUERY_ELEMENT) (qs : List PM_QUERY_ELEMENT)
    (blob : Nat) (ref : Option Nat) out
    (H : compileAux1 (q :: qs) blob ref = .ok out) :
    ∃ ref1, devStep CompileError1.duplicateDevice q ref = .ok ref1 ∧
      ((∃ cmd zs bF rF, map1 q.metric q.arrayIndex blob = some cmd ∧
          compileAux1 qs (blob + totalSize1 cmd) ref1 = .ok (zs, bF, rF) ∧
          out = (({ q with dataOffset := outputOffset1 cmd, dataSize := dataSize1 cmd },
                   some cmd) :: zs, bF, rF)) ∨
       (∃ zs bF rF, map1 q.metric q.arrayIndex blob = none ∧
          compileAux1 qs blob ref1 = .ok (zs, bF, rF) ∧
          out = ((q, none) :: zs, bF, rF))) := by
  simp only [compileAux1] at H
  split at H
  · exact absurd H (by simp)
  · rename_i xdev ref1 hdev
    refine ⟨ref1, hdev, ?_⟩
    split at H
    · rename_i xmap cmd hmap
      split at H
      · exact absurd H (by simp)
      · rename_i xrec zs bF rF hrec
        injection H with H
        exact Or.inl ⟨cmd, zs, bF, rF, hmap, hrec, H.symm⟩
    · rename_i xmap hmap
      split at H
      · exact absurd H (by simp)
      · rename_i xrec zs bF rF hrec
        injection H with H
        exact Or.inr ⟨zs, bF, rF, hmap, hrec, H.symm⟩

theorem compileAux1_cons_error (q : PM_QUERY_ELEMENT) (qs : List PM_QUERY_ELEMENT)
    (blob : Nat) (ref : Option Nat) (e : CompileError1)
    (H : compileAux1 (q :: qs) blob ref = .error e) :
    devStep CompileError1.duplicateDevice q ref = .error e ∨
    (∃ ref1, devStep CompileError1.duplicateDevice q ref = .ok ref1 ∧
      ((∃ cmd, map1 q.metric q.arrayIndex blob = some cmd ∧
          compileAux1 qs (blob + totalSize1 cmd) ref1 = .error e) ∨
       (map1 q.metric q.arrayIndex blob = none ∧ compileAux1 qs blob ref1 = .error e))) := by
  simp only [compileAux1] at H
  split at H
  · rename_i e1 hdev
    injection H with H
    subst H
    exact Or.inl hdev
  · rename_i xdev ref1 hdev
    refine Or.inr ⟨ref1, hdev, ?_⟩
    split at H
    · rename_i xmap cmd hmap
      split at H
      · rename_i e2 hrec
        injection H with H
        subst H
        exact Or.inl ⟨cmd, hmap, hrec⟩
      · exact absurd H (by simp)
    · rename_i xmap hmap
      split at H
      · rename_i e2 hrec
        injection H with H
        subst H
        exact Or.inr ⟨hmap, hrec⟩
      · exact absurd H (by simp)

theorem devStep_zeroDev {ε : Type} (dup : ε) (q : PM_QUERY_ELEMENT) (ref : Option Nat)
    (h : q.deviceId = 0) : devStep dup q ref = .ok ref := by
  unfold devStep
  rw [if_neg (by simp [h])]

theorem devStep_noneRef {ε : Type} (dup : ε) (q : PM_QUERY_ELEMENT)
    (h : q.deviceId ≠ 0) : devStep dup q none = .ok (some q.deviceId) := by
  unfold devStep
  rw [if_pos h]

theorem devStep_matchRef {ε : Type} (dup : ε) (q : PM_QUERY_ELEMENT)
    (h : q.deviceId ≠ 0) : devStep dup q (some q.deviceId) = .ok (some q.deviceId) := by
  unfold devStep
  rw [if_pos h]
  show (if q.deviceId ≠ q.deviceId then Except.error dup else Except.ok (some q.deviceId)) = _
  rw [if_neg (by simp)]

theorem compileAux1_cons_eq (q : PM_QUERY_ELEMENT) (qs : List PM_QUERY_ELEMENT)
    (blob : Nat) (ref ref1 : Option Nat)
    (hdev : devStep CompileError1.duplicateDevice q ref = .ok ref1) :
    compileAux1 (q :: qs) blob ref =
      match map1 q.metric q.arrayIndex blob with
      | some cmd =>
        (match compileAux1 qs (blob + totalSize1 cmd) ref1 with
         | .error e => .error e
         | .ok (zs, bF, rF) =>
           .ok (({ q with dataOffset := outputOffset1 cmd, dataSize := dataSize1 cmd },
                 some cmd) :: zs, bF, rF))
      | none =>
        (match compileAux1 qs blob ref1 with
         | .error e => .error e
         | .ok (zs, bF, rF) => .ok ((q, none) :: zs, bF, rF)) := by
  simp only [compileAux1]
  rw [hdev]

theorem compileAux1_cons_eq_some (q : PM_QUERY_ELEMENT) (qs : List PM_QUERY_ELEMENT)
    (blob : Nat) (ref ref1 : Option Nat) (cmd : Cmd1)
    (hdev : devStep CompileError1.duplicateDevice q ref = .ok ref1)
    (hmap : map1 q.metric q.arrayIndex blob = some cmd) :
    compileAux1 (q :: qs) blob ref =
      match compileAux1 qs (blob + totalSize1 cmd) ref1 with
      | .error e => .error e
      | .ok (zs, bF, rF) =>
        .ok (({ q with dataOffset := outputOffset1 cmd, dataSize := dataSize1 cmd },
              some cmd) :: zs, bF, rF) := by
  rw [compileAux1_cons_eq q qs blob ref ref1 hdev, hmap]

theorem compileAux1_cons_eq_none (q : PM_QUERY_ELEMENT) (qs : List PM_QUERY_ELEMENT)
    (blob : Nat) (ref ref1 : Option Nat)
    (hdev : devStep CompileError1.duplicateDevice q ref = .ok ref1)
    (hmap : map1 q.metric q.arrayIndex blob = none) :
    compileAux1 (q :: qs) blob ref =
      match compileAux1 qs blob ref1 with
      | .error e => .error e
      | .ok (zs, bF, rF) => .ok ((q, none) :: zs, bF, rF) := by
  rw [compileAux1_cons_eq q qs blob ref ref1 hdev, hmap]

theorem compileAux1_cons_build (q : PM_QUERY_ELEMENT) (qs : List PM_QUERY_ELEMENT)
    (blob : Nat) (ref ref1 : Option Nat)
    (hdev : devStep CompileError1.duplicateDevice q ref = .ok ref1)
    (hok : ∃ out, (match map1 q.metric q.arrayIndex blob with
            | some cmd => compileAux1 qs (blob + totalSize1 cmd) ref1
            | none => compileAux1 qs blob ref1) = .ok out) :
    ∃ out2, compileAux1 (q :: qs) blob ref = .ok out2 := by
  obtain ⟨out, hout⟩ := hok
  obtain ⟨zs, bF, rF⟩ := out
  cases hmap : map1 q.metric q.arrayIndex blob with
  | some cmd =>
    rw [hmap] at hout
    have hout2 : compileAux1 qs (blob + totalSize1 cmd) ref1 = .ok (zs, bF, rF) := hout
    refine ⟨(({ q with dataOffset := outputOffset1 cmd, dataSize := dataSize1 cmd },
              some cmd) :: zs, bF, rF), ?_⟩
    rw [compileAux1_cons_eq_some q qs blob ref ref1 cmd hdev hmap, hout2]
  | none =>
    rw [hmap] at hout
    have hout2 : compileAux1 qs blob ref1 = .ok (zs, bF, rF) := hout
    refine ⟨((q, none) :: zs, bF, rF), ?_⟩
    rw [compileAux1_cons_eq_none q qs blob ref ref1 hdev hmap, hout2]

theorem compileAux1_dup (qs : List PM_QUERY_ELEMENT) :
    ∀ blob ref, compileAux1 qs blob ref = .error .duplicateDevice →
    (∀ r0, ref = some r0 → ∃ q ∈ qs, q.deviceId ≠ 0 ∧ q.deviceId ≠ r0) ∧
    (ref = none → hasConflict qs) := by
  induction qs with
  | nil =>
    intro blob ref H
    simp only [compileAux1] at H
    exact absurd H (by simp)
  | cons q qs ih =>
    intro blob ref H
    rcases compileAux1_cons_error _ _ _ _ _ H with hdev | ⟨ref1, hdev, hrest⟩
    · obtain ⟨h0, _, r0, hr, hne⟩ := devStep_error _ _ _ _ hdev
      subst hr
      constructor
      · intro r1 hr1
        injection hr1 with hr1
        subst hr1
        exact ⟨q, List.mem_cons_self _ _, h0, fun hc => hne hc.symm⟩
      · intro hr
        exact absurd hr (by simp)
    · have hrec : ∃ blob2, compileAux1 qs blob2 ref1 = .error .duplicateDevice := by
        rcases hrest with ⟨cmd, _, hrec⟩ | ⟨_, hrec⟩
        · exact ⟨_, hrec⟩
        · exact ⟨_, hrec⟩
      obtain ⟨blob2, hrec⟩ := hrec
      have h2 := ih blob2 ref1 hrec
      rcases devStep_ok _ _ _ _ hdev with ⟨h0, hr⟩ | ⟨h0, hrn, hr1⟩ | ⟨h0, hrs, hr1⟩
      · subst hr
        constructor
        · intro r0 hr0
          obtain ⟨r, hm, ha, hb⟩ := h2.1 r0 hr0
          exact ⟨r, List.mem_cons_of_mem _ hm, ha, hb⟩
        · intro hr0
          obtain ⟨a, hma, b, hmb, hcon⟩ := h2.2 hr0
          exact ⟨a, List.mem_cons_of_mem _ hma, b, List.mem_cons_of_mem _ hmb, hcon⟩
      · subst hrn
        subst hr1
        constructor
        · intro r0 hr0
          exact absurd hr0 (by simp)
        · intro _
          obtain ⟨r, hm, ha, hb⟩ := h2.1 q.deviceId rfl
          exact ⟨q, List.mem_cons_self _ _, r, List.mem_cons_of_mem _ hm, h0, ha,
            fun hc => hb hc.symm⟩
      · subst hrs
        subst hr1
        constructor
        · intro r0 hr0
          injection hr0 with hr0
          subst hr0
          obtain ⟨r, hm, ha, hb⟩ := h2.1 q.deviceId rfl
          exact ⟨r, List.mem_cons_of_mem _ hm, ha, hb⟩
        · intro hr0
          exact absurd hr0 (by simp)

theorem compileAux1_ok_noConflict (qs : List PM_QUERY_ELEMENT) :
    ∀ blob ref out, compileAux1 qs blob ref = .ok out →
    (∀ r0, ref = some r0 → ∀ a ∈ qs, a.deviceId ≠ 0 → a.deviceId = r0) ∧
    (ref = none → ¬ hasConflict qs) := by
  induction qs with
  | nil =>
    intro blob ref out H
    constructor
    · intro r0 _ a ha
      exact absurd ha (by simp)
    · intro _ hc
      obtain ⟨a, ha, _⟩ := hc
      exact absurd ha (by simp)
  | cons q qs ih =>
    intro blob ref out H
    obtain ⟨ref1, hdev, hrest⟩ := compileAux1_cons_ok _ _ _ _ _ H
    have hrec : ∃ blob2 out2, compileAux1 qs blob2 ref1 = .ok out2 := by
      rcases hrest with ⟨cmd, zs, bF, rF, _, hrec, _⟩ | ⟨zs, bF, rF, _, hrec, _⟩
      · exact ⟨_, _, hrec⟩
      · exact ⟨_, _, hrec⟩
    obtain ⟨blob2, out2, hrec⟩ := hrec
    have h2 := ih blob2 ref1 out2 hrec
    rcases devStep_ok _ _ _ _ hdev with ⟨h0, hr⟩ | ⟨h0, hrn, hr1⟩ | ⟨h0, hrs, hr1⟩
    · subst hr
      constructor
      · intro r0 hr0 a ha ha0
        simp only [List.mem_cons] at ha
        cases ha with
        | inl ha => subst ha; exact absurd h0 ha0
        | inr ha => exact h2.1 r0 hr0 a ha ha0
      · intro hr0 hc
        obtain ⟨a, hma, b, hmb, ha0, hb0, hne⟩ := hc
        simp only [List.mem_cons] at hma hmb
        cases hma with
        | inl hma => subst hma; exact ha0 h0
        | inr hma =>
          cases hmb with
          | inl hmb => subst hmb; exact hb0 h0
          | inr hmb => exact h2.2 hr0 ⟨a, hma, b, hmb, ha0, hb0, hne⟩
    · subst hrn
      subst hr1
      constructor
      · intro r0 hr0
        exact absurd hr0 (by simp)
      · intro _ hc
        obtain ⟨a, hma, b, hmb, ha0, hb0, hne⟩ := hc
        simp only [List.mem_cons] at hma hmb
        cases hma with
        | inl hma =>
          subst hma
          cases hmb with
          | inl hmb => subst hmb; exact hne rfl
          | inr hmb => exact hne (h2.1 a.deviceId rfl b hmb hb0).symm
        | inr hma =>
          cases hmb with
          | inl hmb =>
            subst hmb
            exact hne (h2.1 b.deviceId rfl a hma ha0)
          | inr hmb =>
            have hae := h2.1 q.deviceId rfl a hma ha0
            have hbe := h2.1 q.deviceId rfl b hmb hb0
            exact hne (hae.trans hbe.symm)
    · subst hrs
      subst hr1
      constructor
      · intro r0 hr0 a ha ha0
        injection hr0 with hr0
        subst hr0
        simp only [List.mem_cons] at ha
        cases ha with
        | inl ha => subst ha; rfl
        | inr ha => exact h2.1 q.deviceId rfl a ha ha0
      · intro hr0
        exact absurd hr0 (by simp)

theorem compileAux1_noConflict_ok (qs : List PM_QUERY_ELEMENT) :
    ∀ blob ref,
    ((ref = none ∧ ¬ hasConflict qs) ∨
     (∃ r0, ref = some r0 ∧ ∀ a ∈ qs, a.deviceId ≠ 0 → a.deviceId = r0)) →
    ∃ out, compileAux1 qs blob ref = .ok out := by
  induction qs with
  | nil =>
    intro blob ref _
    exact ⟨([], blob, ref), rfl⟩
  | cons q qs ih =>
    intro blob ref h
    rcases h with ⟨hrn, hnc⟩ | ⟨r0, hrs, hall⟩
    · subst hrn
      by_cases h0 : q.deviceId = 0
      · have hnc2 : ¬ hasConflict qs := by
          intro hc
          obtain ⟨a, hma, b, hmb, hrest⟩ := hc
          exact hnc ⟨a, List.mem_cons_of_mem _ hma, b, List.mem_cons_of_mem _ hmb, hrest⟩
        refine compileAux1_cons_build q qs blob none none (devStep_zeroDev _ _ _ h0) ?_
        cases hmap : map1 q.metric q.arrayIndex blob with
        | some cmd => exact ih (blob + totalSize1 cmd) none (Or.inl ⟨rfl, hnc2⟩)
        | none => exact ih blob none (Or.inl ⟨rfl, hnc2⟩)
      · have hall2 : ∀ a ∈ qs, a.deviceId ≠ 0 → a.deviceId = q.deviceId := by
          intro a ha ha0
          by_contra hne
          exact hnc ⟨q, List.mem_cons_self _ _, a, List.mem_cons_of_mem _ ha, h0, ha0,
            fun hc => hne hc.symm⟩
        refine compileAux1_cons_build q qs blob none (some q.deviceId)
          (devStep_noneRef _ _ h0) ?_
        cases hmap : map1 q.metric q.arrayIndex blob with
        | some cmd =>
          exact ih (blob + totalSize1 cmd) (some q.deviceId) (Or.inr ⟨q.deviceId, rfl, hall2⟩)
        | none => exact ih blob (some q.deviceId) (Or.inr ⟨q.deviceId, rfl, hall2⟩)
    · subst hrs
      have htail : ∀ a ∈ qs, a.deviceId ≠ 0 → a.deviceId = r0 := by
        intro a ha ha0
        exact hall a (List.mem_cons_of_mem _ ha) ha0
      by_cases h0 : q.deviceId = 0
      · refine compileAux1_cons_build q qs blob (some r0) (some r0)
          (devStep_zeroDev _ _ _ h0) ?_
        cases hmap : map1 q.metric q.arrayIndex blob with
        | some cmd => exact ih (blob + totalSize1 cmd) (some r0) (Or.inr ⟨r0, rfl, htail⟩)
        | none => exact ih blob (some r0) (Or.inr ⟨r0, rfl, htail⟩)
      · have hq : q.deviceId = r0 := hall q (List.mem_cons_self _ _) h0
        subst hq
        refine compileAux1_cons_build q qs blob (some q.deviceId) (some q.deviceId)
          (devStep_matchRef _ _ h0) ?_
        cases hmap : map1 q.metric q.arrayIndex blob with
        | some cmd =>
          exact ih (blob + totalSize1 cmd) (some q.deviceId)
            (Or.inr ⟨q.deviceId, rfl, htail⟩)
        | none => exact ih blob (some q.deviceId) (Or.inr ⟨q.deviceId, rfl, htail⟩)

theorem compileAux1_ref (qs : List PM_QUERY_ELEMENT) :
    ∀ blob ref out, compileAux1 qs blob ref = .ok out →
    out.2.2 = (match ref with
               | some r => some r
               | none => (nonzeroDevs qs).head?) := by
  induction qs with
  | nil =>
    intro blob ref out H
    simp only [compileAux1] at H
    injection H with H
    subst H
    cases ref <;> rfl
  | cons q qs ih =>
    intro blob ref out H
    obtain ⟨ref1, hdev, hrest⟩ := compileAux1_cons_ok _ _ _ _ _ H
    have hstep : ∃ blob2 zs bF rF, compileAux1 qs blob2 ref1 = .ok (zs, bF, rF) ∧
        out.2.2 = rF := by
      rcases hrest with ⟨cmd, zs, bF, rF, _, hrec, hout⟩ | ⟨zs, bF, rF, _, hrec, hout⟩
      · exact ⟨_, zs, bF, rF, hrec, by rw [hout]⟩
      · exact ⟨_, zs, bF, rF, hrec, by rw [hout]⟩
    obtain ⟨blob2, zs, bF, rF, hrec, hout⟩ := hstep
    have h2 := ih blob2 ref1 _ hrec
    rw [hout]
    rcases devStep_ok _ _ _ _ hdev with ⟨h0, hr⟩ | ⟨h0, hrn, hr1⟩ | ⟨h0, hrs, hr1⟩
    · subst hr
      rw [show ((zs, bF, rF) : List (PM_QUERY_ELEMENT × Option Cmd1) × Nat × Option Nat).2.2
          = rF from rfl] at h2
      rw [h2]
      have hnz : nonzeroDevs (q :: qs) = nonzeroDevs qs := by
        simp [nonzeroDevs, h0]
      rw [hnz]
    · subst hrn
      subst hr1
      rw [show ((zs, bF, rF) : List (PM_QUERY_ELEMENT × Option Cmd1) × Nat × Option Nat).2.2
          = rF from rfl] at h2
      rw [h2]
      have : nonzeroDevs (q :: qs) = q.deviceId :: nonzeroDevs qs := by
        simp [nonzeroDevs, h0]
      rw [this]
      rfl
    · subst hrs
      subst hr1
      rw [show ((zs, bF, rF) : List (PM_QUERY_ELEMENT × Option Cmd1) × Nat × Option Nat).2.2
          = rF from rfl] at h2
      rw [h2]

theorem compile1_ok_elim (qs : List PM_QUERY_ELEMENT) (fq : FrameQuery1)
    (H : compile1 qs = .ok fq) :
    ∃ zs blob ref, compileAux1 qs 0 none = .ok (zs, blob, ref) ∧
      fq = ⟨zs, blob + getPadding blob 16, ref⟩ := by
  unfold compile1 at H
  split at H
  · exact absurd H (by simp)
  · rename_i x zs blob ref heq
    injection H with H
    exact ⟨zs, blob, ref, heq, H.symm⟩

theorem compile1_error_elim (qs : List PM_QUERY_ELEMENT) (e : CompileError1)
    (H : compile1 qs = .error e) : compileAux1 qs 0 none = .error e := by
  unfold compile1 at H
  split at H
  · rename_i x e2 heq
    injection H with H
  · exact absurd H (by simp)

theorem compile1_error_intro (qs : List PM_QUERY_ELEMENT) (e : CompileError1)
    (h : compileAux1 qs 0 none = .error e) : compile1 qs = .error e := by
  unfold compile1
  rw [h]

theorem compile1_ok_intro (qs : List PM_QUERY_ELEMENT) zs blob ref
    (h : compileAux1 qs 0 none = .ok (zs, blob, ref)) :
    compile1 qs = .ok ⟨zs, blob + getPadding blob 16, ref⟩ := by
  unfold compile1
  rw [h]

theorem compile2_ok_elim (qs : List PM_QUERY_ELEMENT) (fq : FrameQuery2)
    (H : compile2 qs = .ok fq) :
    ∃ zs blob ref, compileAux2 qs 0 none = .ok (zs, blob, ref) ∧
      fq = ⟨zs, blob + getPadding blob 16, ref⟩ := by
  unfold compile2 at H
  split at H
  · exact absurd H (by simp)
  · rename_i x zs blob ref heq
    injection H with H
    exact ⟨zs, blob, ref, heq, H.symm⟩

theorem compile2_error_elim (qs : List PM_QUERY_ELEMENT) (e : CompileError2)
    (H : compile2 qs = .error e) : compileAux2 qs 0 none = .error e := by
  unfold compile2 at H
  split at H
  · rename_i x e2 heq
    injection H with H
    subst H
    exact heq
  · exact absurd H (by simp)

theorem compile2_isOk_eq (qs : List PM_QUERY_ELEMENT) :
    exceptIsOk (compile2 qs) = exceptIsOk (compileAux2 qs 0 none) := by
  unfold compile2
  cases h : compileAux2 qs 0 none with
  | error e => rfl
  | ok t =>
    obtain ⟨zs, blob, ref⟩ := t
    rfl

theorem minRequest_le (rs : List Nat) (d r : Nat) (hr : r ∈ rs) : minRequest rs d ≤ r := by
  unfold minRequest
  cases h : rs.min? with
  | none =>
    rw [List.min?_eq_none_iff] at h
    subst h
    exact absurd hr (by simp)
  | some m =>
    exact (List.min?_eq_some_iff'.mp h).2 r hr

theorem minRequest_mem_or (rs : List Nat) (d : Nat) :
    minRequest rs d ∈ rs ∨ (rs = [] ∧ minRequest rs d = d) := by
  unfold minRequest
  cases h : rs.min? with
  | none =>
    rw [List.min?_eq_none_iff] at h
    exact Or.inr ⟨h, rfl⟩
  | some m =>
    exact Or.inl (List.min?_eq_some_iff'.mp h).1

theorem map1_droppedNan (m : PM_METRIC) (hm : m ∈ droppedNanMetrics) (ai pos : Nat)
    (cmd : Cmd1) (h : map1 m ai pos = some cmd) (ctx : Ctx1) (hd : ctx.dropped = true) :
    gather1 cmd ctx = ⟨outputOffset1 cmd, 8, .nan⟩ := by
  simp only [droppedNanMetrics, List.mem_cons] at hm
  rcases hm with rfl | rfl | rfl | rfl | hm
  · simp only [map1] at h
    injection h with h
    subst h
    simp [gather1, hd, outputOffset1]
  · simp only [map1] at h
    injection h with h
    subst h
    simp [gather1, hd, outputOffset1]
  · simp only [map1] at h
    injection h with h
    subst h
    simp [gather1, hd, outputOffset1]
  · simp only [map1] at h
    injection h with h
    subst h
    simp [gather1, hd, outputOffset1]
  · exact absurd hm (by simp)

theorem map2_droppedNan (m : PM_METRIC) (hm : m ∈ droppedNanMetrics) (ai pos : Nat)
    (cmd : Cmd2) (h : map2 m ai pos = some cmd) (ctx : Ctx2) (hd : ctx.dropped = true) :
    gather2 cmd ctx = ⟨outputOffset2 cmd, 8, .nan⟩ := by
  simp only [droppedNanMetrics, List.mem_cons] at hm
  rcases hm with rfl | rfl | rfl | rfl | hm
  · simp only [map2] at h
    injection h with h
    subst h
    simp [gather2, hd, outputOffset2]
  · simp only [map2] at h
    injection h with h
    subst h
    simp [gather2, hd, outputOffset2]
  · simp only [map2] at h
    injection h with h
    subst h
    simp [gather2, hd, outputOffset2]
  · simp only [map2] at h
    injection h with h
    subst h
    simp [gather2, hd, outputOffset2]
  · exact absurd hm (by simp)

theorem dataSize1_eq_align (c : Cmd1) : dataSize1 c = alignOfTag (outTag1 c) := by
  unfold dataSize1 endOffset1
  omega

theorem dataSize2_eq_align (c : Cmd2) : dataSize2 c = alignOfTag (outTag2 c) := by
  unfold dataSize2 endOffset2
  omega

/-!
Claim theorems.
-/

/-- C1 counterexample: the claim predicts that after clients requesting 63
and then 36 connect, the effective telemetry period is still the oldest
requester's 63; the `SecondClientOverrides` test trace records that the
service reports 36 at that state, so first-writer-wins, evaluated there,
disagrees with the recorded behaviour (63 versus 36). -/
theorem C1_counterexample :
    (telemetryPeriodTestSteps.get? 5).map
      (fun st => (effectiveTelemetryFirstWriter st.sessions, st.expected)) = some (63, 36) ∧
    (63 : Nat) ≠ 36 := by
  exact ⟨by decide, by decide⟩

/-- C1 (amended): telemetry-period arbitration is smallest-value-wins: the
effective period is the minimum of all connected sessions' non-null requests
(16 ms when none), which is a lower bound of every request, is attained by
some request or is the default, and reproduces every status assertion of the
telemetry multi-client tests, including reversion on disconnect. -/
theorem C1_amended_smallest_wins :
    (telemetryPeriodTestSteps.all
      (fun st => effectiveTelemetryMin st.sessions == st.expected) = true) ∧
    (∀ ss r, r ∈ ss.filterMap (·.requestedTelemetryPeriodMs) →
      effectiveTelemetryMin ss ≤ r) ∧
    (∀ ss, effectiveTelemetryMin ss ∈ ss.filterMap (·.requestedTelemetryPeriodMs) ∨
      (ss.filterMap (·.requestedTelemetryPeriodMs) = [] ∧
        effectiveTelemetryMin ss = defaultTelemetryPeriodMs)) := by
  refine ⟨by decide, ?_, ?_⟩
  · intro ss r hr
    exact minRequest_le _ _ _ hr
  · intro ss
    exact minRequest_mem_or _ _

/-- C1 witness: the amended rule evaluated at the two-session state of the
override test. -/
theorem C1_witness :
    effectiveTelemetryMin [sessionT 1 63, sessionT 2 36] ≤ 36 := by
  exact C1_amended_smallest_wins.2.1 [sessionT 1 63, sessionT 2 36] 36 (by decide)

/-- C6: event-flush-period arbitration is smallest-value-wins: the effective
value is the minimum of connected sessions' non-null requests (1000 ms when
none), a lower bound of every request, attained or default, and it reproduces
every status assertion of the flush-period multi-client tests, including
reversion across disconnects. -/
theorem C6_flush_smallest_wins :
    (etwFlushPeriodTestSteps.all
      (fun st => effectiveEtwFlushPeriod st.sessions == st.expected) = true) ∧
    (∀ ss r, r ∈ ss.filterMap (·.requestedEtwFlushPeriodMs) →
      effectiveEtwFlushPeriod ss ≤ r) ∧
    (∀ ss, effectiveEtwFlushPeriod ss ∈ ss.filterMap (·.requestedEtwFlushPeriodMs) ∨
      (ss.filterMap (·.requestedEtwFlushPeriodMs) = [] ∧
        effectiveEtwFlushPeriod ss = defaultEtwFlushPeriodMs)) := by
  refine ⟨by decide, ?_, ?_⟩
  · intro ss r hr
    exact minRequest_le _ _ _ hr
  · intro ss
    exact minRequest_mem_or _ _

/-- C6 witness: the flush rule evaluated at the two-session override state. -/
theorem C6_witness :
    effectiveEtwFlushPeriod [sessionF 1 50, sessionF 2 35] ≤ 35 := by
  exact C6_flush_smallest_wins.2.1 [sessionF 1 50, sessionF 2 35] 35 (by decide)

/-- C2 counterexample: compiling the five E7 metrics and gathering on a
dropped context writes NaN for DISPLAY_LATENCY, CLICK_TO_PHOTON_LATENCY,
DISPLAYED_TIME and ANIMATION_ERROR, but writes the number 0 (not NaN) at
GPU_LATENCY's dataOffset 0, because its gather command carries no
dropped-check flag. -/
theorem C2_counterexample :
    (compile1 e7Query).toOption.map
        (fun fq => (fq.elements.map (fun p => p.1.dataOffset),
                    gatherToBlob1 fq ctx1Dropped))
      = some ([0, 8, 16, 24, 32],
          [⟨0, 8, .num 0⟩, ⟨8, 8, .nan⟩, ⟨16, 8, .nan⟩, ⟨24, 8, .nan⟩, ⟨32, 8, .nan⟩]) ∧
    ctx1Dropped.dropped = true ∧ Val.num 0 ≠ Val.nan := by
  exact ⟨by decide, rfl, by decide⟩

/-- C2 (amended): in every compiled query of either engine revision, for
every context with dropped = true, the elements whose metrics are
DISPLAY_LATENCY, CLICK_TO_PHOTON_LATENCY, DISPLAYED_TIME or ANIMATION_ERROR
have NaN written at their back-filled dataOffset; GPU_LATENCY is excluded
because its command has no dropped check. -/
theorem C2_amended_dropped_nan :
    (∀ qs (ctx : Ctx1) fq, compile1 qs = .ok fq → ctx.dropped = true →
      ∀ p ∈ fq.elements, p.1.metric ∈ droppedNanMetrics →
      ∀ cmd, p.2 = some cmd → gather1 cmd ctx = ⟨p.1.dataOffset, 8, .nan⟩) ∧
    (∀ qs (ctx : Ctx2) fq, compile2 qs = .ok fq → ctx.dropped = true →
      ∀ p ∈ fq.elements, p.1.metric ∈ droppedNanMetrics →
      gather2 p.2 ctx = ⟨p.1.dataOffset, 8, .nan⟩) := by
  constructor
  · intro qs ctx fq hc hd p hp hm cmd hcmd
    obtain ⟨zs, blob, ref, haux, hfq⟩ := compile1_ok_elim _ _ hc
    subst hfq
    obtain ⟨_, _, hdo, _, pos, hmap⟩ := (compileAux1_entries _ _ _ _ haux p hp).1 cmd hcmd
    rw [map1_droppedNan _ hm _ _ _ hmap ctx hd, hdo]
  · intro qs ctx fq hc hd p hp hm
    obtain ⟨zs, blob, ref, haux, hfq⟩ := compile2_ok_elim _ _ hc
    subst hfq
    obtain ⟨hdo, _, pos, hmap⟩ := compileAux2_entries _ _ _ _ haux p hp
    rw [map2_droppedNan _ hm _ _ _ hmap ctx hd, hdo]

/-- C2 witness: the amended statement applied to the compiled E7 query and
the concrete dropped context, at its DISPLAY_LATENCY element. -/
theorem C2_witness :
    gather1 (Cmd1.cpuFrameQpcDifference PreU64Field.ScreenTime true 8 0) ctx1Dropped
      = ⟨8, 8, Val.nan⟩ := by
  exact C2_amended_dropped_nan.1 e7Query ctx1Dropped
    ((compile1 e7Query).toOption.getD default) (by decide) rfl
    ⟨⟨.PM_METRIC_DISPLAY_LATENCY, 0, 0, 8, 8⟩,
      some (Cmd1.cpuFrameQpcDifference PreU64Field.ScreenTime true 8 0)⟩
    (by decide) (by decide) _ rfl

/-- C3 counterexample: the revision-2 `UpdateSourceData` dereferences
`pFrameDataOfLastPresented` unconditionally, so calling it with that
neighbour null faults (modelled as `none`) instead of completing with the
CPU-start field set to 0. -/
theorem C3_counterexample :
    updateSourceData2 ctx2ZeroPrev fdAB (some fdAB) none (some fdAB) (some fdAB) = none := rfl

/-- C3 (amended): in revision 1 `UpdateSourceData` completes for all inputs
and sets each derived field to 0 when its source neighbour is null; in
revision 2 it completes exactly when the last-presented and next-displayed
neighbours are both non-null (faulting otherwise), and when it completes it
sets `previousDisplayedQpc` and `previousDisplayedCpuStartQpc` to 0 for null
last-displayed and previous-of-last-displayed neighbours. -/
theorem C3_amended_null_policy :
    (∀ (ctx : Ctx1) src a b c d,
      (b = none → (updateSourceData1 ctx src a b c d).cpuStart = 0) ∧
      (a = none → (updateSourceData1 ctx src a b c d).nextDisplayedQpc = 0) ∧
      (c = none → (updateSourceData1 ctx src a b c d).previousDisplayedQpc = 0) ∧
      (d = none → (updateSourceData1 ctx src a b c d).previousDisplayedCpuStartQpc = 0)) ∧
    (∀ (ctx : Ctx2) src a b c d,
      (updateSourceData2 ctx src a b c d).isSome = true ↔
        (b.isSome = true ∧ a.isSome = true)) ∧
    (∀ (ctx : Ctx2) src a b c d c2, updateSourceData2 ctx src a b c d = some c2 →
      (c = none → c2.previousDisplayedQpc = 0) ∧
      (d = none → c2.previousDisplayedCpuStartQpc = 0)) := by
  refine ⟨?_, ?_, ?_⟩
  · intro ctx src a b c d
    refine ⟨?_, ?_, ?_, ?_⟩ <;> (intro h; subst h; rfl)
  · intro ctx src a b c d
    cases a <;> cases b <;> simp [updateSourceData2]
  · intro ctx src a b c d c2 h
    cases a with
    | none => cases b <;> exact absurd h (by simp [updateSourceData2])
    | some nd =>
      cases b with
      | none => exact absurd h (by simp [updateSourceData2])
      | some lp =>
        simp only [updateSourceData2] at h
        injection h with h
        subst h
        constructor
        · intro hc
          subst hc
          rfl
        · intro hd
          subst hd
          rfl

/-- C3 witness: revision 1 applied with all neighbours null, and revision 2
applied with the two mandatory neighbours present. -/
theorem C3_witness :
    (updateSourceData1 ctx1Live fdAB none none none none).cpuStart = 0 ∧
    (updateSourceData1 ctx1Live fdAB none none none none).nextDisplayedQpc = 0 ∧
    (updateSourceData1 ctx1Live fdAB none none none none).previousDisplayedQpc = 0 ∧
    (updateSourceData1 ctx1Live fdAB none none none none).previousDisplayedCpuStartQpc = 0 ∧
    (updateSourceData2 ctx2ZeroPrev fdAB (some fdAB) (some fdAB) none none).isSome = true := by
  refine ⟨(C3_amended_null_policy.1 ctx1Live fdAB none none none none).1 rfl,
          (C3_amended_null_policy.1 ctx1Live fdAB none none none none).2.1 rfl,
          (C3_amended_null_policy.1 ctx1Live fdAB none none none none).2.2.1 rfl,
          (C3_amended_null_policy.1 ctx1Live fdAB none none none none).2.2.2 rfl,
          (C3_amended_null_policy.2.1 ctx2ZeroPrev fdAB (some fdAB) (some fdAB) none none).mpr
            ⟨rfl, rfl⟩⟩

/-- C4 counterexample: with fifteen one-byte dropped-flag elements followed
by APPLICATION, the compiled blob size is 16, yet the application copy at
offset 15 writes 3 bytes (a two-character name plus NUL), reaching offsets
16 and 17, outside the blob. -/
theorem C4_counterexample :
    (compile1 appLastQuery).toOption.map
        (fun fq => (fq.blobSize, (gatherToBlob1 fq ctx1Live).getLast?))
      = some (16, some ⟨15, 3, .bytes [65, 66]⟩) ∧ 16 < 15 + 3 := by
  exact ⟨by decide, by decide⟩

/-- C4 (amended): for every compiled revision-1 query and every context,
every gather command except the char-array (APPLICATION) copy writes only
bytes inside `[0, blobSize)`; the char-array copy reserves a single byte but
writes the full null-terminated string bounded at 260 bytes, and may exceed
the blob. -/
theorem C4_amended_writes_bounded :
    ∀ qs (ctx : Ctx1) fq, compile1 qs = .ok fq →
    ∀ p ∈ fq.elements, ∀ cmd, p.2 = some cmd → isCharsCmd1 cmd = false →
      (gather1 cmd ctx).off + (gather1 cmd ctx).len ≤ fq.blobSize := by
  intro qs ctx fq hc p hp cmd hcmd hchar
  obtain ⟨zs, blob, ref, haux, hfq⟩ := compile1_ok_elim _ _ hc
  subst hfq
  obtain ⟨_, hend, _, _, _⟩ := (compileAux1_entries _ _ _ _ haux p hp).1 cmd hcmd
  rw [gather1_off, gather1_len _ _ hchar]
  have hend2 : endOffset1 cmd ≤ blob := hend
  show endOffset1 cmd ≤ blob + getPadding blob 16
  omega

/-- C4 witness: the amended bound at a compiled single-element GPU_LATENCY
query. -/
theorem C4_witness :
    (gather1 (Cmd1.cpuFrameQpcDifference PreU64Field.GPUStartTime false 0 0) ctx1Live).off
      + (gather1 (Cmd1.cpuFrameQpcDifference PreU64Field.GPUStartTime false 0 0) ctx1Live).len
      ≤ 16 := by
  exact C4_amended_writes_bounded [qe .PM_METRIC_GPU_LATENCY] ctx1Live
    ((compile1 [qe .PM_METRIC_GPU_LATENCY]).toOption.getD default) (by decide)
    ⟨⟨.PM_METRIC_GPU_LATENCY, 0, 0, 0, 8⟩,
      some (Cmd1.cpuFrameQpcDifference PreU64Field.GPUStartTime false 0 0)⟩
    (by decide) _ rfl (by decide)

/-- C5 counterexample: in the revision-2 constructor an unknown metric is
fatal: the loop pushes the null command returned by the map's default branch
and dereferences it, modelled as the null-command fault. -/
theorem C5_counterexample :
    compile2 [qe .PM_METRIC_CPU_VENDOR] = .error CompileError2.nullCommandFault := by
  decide

/-- C5 (amended): in revision 1 an unknown metric is skipped exactly as the
claim states: an element's command slot is empty iff its metric is
unsupported, skipped elements pass through unchanged (retaining
dataSize = 0), an unsupported head element leaves blobSize, the other
elements and the referenced device untouched, and compilation never fails
without a device conflict; in revision 2 any unsupported metric makes the
whole compile fault. -/
theorem C5_amended_unknown_metric :
    (∀ qs fq, compile1 qs = .ok fq → ∀ p ∈ fq.elements,
      (p.2 = none ↔ supported1 p.1.metric = false) ∧ (p.2 = none → p.1 ∈ qs)) ∧
    (∀ q qs, supported1 q.metric = false → q.deviceId = 0 →
      compile1 (q :: qs) = (compile1 qs).map
        (fun fq => ⟨(q, none) :: fq.elements, fq.blobSize, fq.referencedDevice⟩)) ∧
    (∀ qs, ¬ hasConflict qs → exceptIsOk (compile1 qs) = true) ∧
    (∀ qs, (∃ q ∈ qs, supported2 q.metric = false) → exceptIsOk (compile2 qs) = false) := by
  refine ⟨?_, ?_, ?_, ?_⟩
  · intro qs fq hc p hp
    obtain ⟨zs, blob, ref, haux, hfq⟩ := compile1_ok_elim _ _ hc
    subst hfq
    have he := compileAux1_entries _ _ _ _ haux p hp
    refine ⟨⟨fun h => (he.2 h).2, ?_⟩, fun h => (he.2 h).1⟩
    intro h
    cases hc2 : p.2 with
    | none => rfl
    | some cmd =>
      obtain ⟨_, _, _, _, pos, hmap⟩ := he.1 cmd hc2
      have hs := map1_isSome p.1.metric p.1.arrayIndex pos
      rw [hmap, h] at hs
      exact absurd hs (by simp)
  · intro q qs hsup hdev0
    have hmapn : map1 q.metric q.arrayIndex 0 = none := by
      cases h2 : map1 q.metric q.arrayIndex 0 with
      | none => rfl
      | some c =>
        have hs := map1_isSome q.metric q.arrayIndex 0
        rw [h2, hsup] at hs
        exact absurd hs (by simp)
    unfold compile1
    rw [compileAux1_cons_eq_none q qs 0 none none (devStep_zeroDev _ _ _ hdev0) hmapn]
    cases haux : compileAux1 qs 0 none with
    | error e => rfl
    | ok t =>
      obtain ⟨zs, blob, ref⟩ := t
      rfl
  · intro qs hnc
    obtain ⟨out, hout⟩ := compileAux1_noConflict_ok qs 0 none (Or.inl ⟨rfl, hnc⟩)
    obtain ⟨zs, blob, ref⟩ := out
    rw [compile1_ok_intro qs zs blob ref hout]
    rfl
  · intro qs hex
    rw [compile2_isOk_eq]
    exact compileAux2_unsupported qs 0 none hex

/-- C5 witness: the amended clauses applied to a one-element unknown-metric
query. -/
theorem C5_witness :
    compile1 [qe .PM_METRIC_CPU_VENDOR] = (compile1 ([] : List PM_QUERY_ELEMENT)).map
      (fun fq => ⟨(qe .PM_METRIC_CPU_VENDOR, none) :: fq.elements,
                  fq.blobSize, fq.referencedDevice⟩) ∧
    exceptIsOk (compile2 [qe .PM_METRIC_CPU_VENDOR]) = false ∧
    exceptIsOk (compile1 [qe .PM_METRIC_CPU_VENDOR]) = true := by
  refine ⟨C5_amended_unknown_metric.2.1 _ [] (by decide) rfl,
          C5_amended_unknown_metric.2.2.2 _ ⟨qe .PM_METRIC_CPU_VENDOR, by decide, by decide⟩,
          C5_amended_unknown_metric.2.2.1 _ (by decide)⟩

/-- C7 counterexample: compiling a single APPLICATION element back-fills its
dataSize as 1 (the alignment of char[260]), not the 260 the claim's
`sizeof`-based rule predicts. -/
theorem C7_counterexample :
    (compile1 [qe .PM_METRIC_APPLICATION]).toOption.map
        (fun fq => fq.elements.map (fun p => p.1.dataSize)) = some [1] ∧
    (1 : Nat) ≠ 260 := by
  exact ⟨by decide, by decide⟩

/-- C7 (amended): every compiled command satisfies
`endOffset = outputOffset + alignof(outputType)` (not sizeof), and the
back-filled dataSize equals that alignment; alignment and size coincide for
every scalar output type (8 for doubles), but for the char[260] APPLICATION
buffer the alignment is 1 while its size is 260, so its dataSize is 1. -/
theorem C7_amended_data_size :
    (∀ qs fq, compile1 qs = .ok fq → ∀ p ∈ fq.elements, ∀ cmd, p.2 = some cmd →
      endOffset1 cmd = outputOffset1 cmd + alignOfTag (outTag1 cmd) ∧
      p.1.dataSize = alignOfTag (outTag1 cmd)) ∧
    (∀ t, t ≠ TypeTag.chars260 → alignOfTag t = sizeOfTag t) ∧
    alignOfTag TypeTag.chars260 = 1 ∧ sizeOfTag TypeTag.chars260 = 260 := by
  refine ⟨?_, ?_, rfl, rfl⟩
  · intro qs fq hc p hp cmd hcmd
    obtain ⟨zs, blob, ref, haux, hfq⟩ := compile1_ok_elim _ _ hc
    subst hfq
    obtain ⟨_, _, _, hds, _⟩ := (compileAux1_entries _ _ _ _ haux p hp).1 cmd hcmd
    exact ⟨rfl, by rw [hds, dataSize1_eq_align]⟩
  · intro t ht
    cases t <;> first | rfl | exact absurd rfl ht

/-- C7 witness: the amended statement at the compiled APPLICATION query. -/
theorem C7_witness :
    (1 : Nat) = alignOfTag (outTag1 (Cmd1.copyChars 0 0 0)) := by
  exact (C7_amended_data_size.1 [qe .PM_METRIC_APPLICATION]
    ((compile1 [qe .PM_METRIC_APPLICATION]).toOption.getD default) (by decide)
    ⟨⟨.PM_METRIC_APPLICATION, 0, 0, 0, 1⟩, some (Cmd1.copyChars 0 0 0)⟩
    (by decide) _ rfl).2

/-- C8: both constructor revisions pad the accumulated blob size to the next
multiple of 16 after the element loop, so every successfully compiled query
has `blobSize % 16 = 0`. -/
theorem C8_blob_multiple_of_16 :
    (∀ qs fq, compile1 qs = .ok fq → fq.blobSize % 16 = 0) ∧
    (∀ qs fq, compile2 qs = .ok fq → fq.blobSize % 16 = 0) := by
  constructor
  · intro qs fq hc
    obtain ⟨zs, blob, ref, _, hfq⟩ := compile1_ok_elim _ _ hc
    subst hfq
    exact add_getPadding_16 blob
  · intro qs fq hc
    obtain ⟨zs, blob, ref, _, hfq⟩ := compile2_ok_elim _ _ hc
    subst hfq
    exact add_getPadding_16 blob

/-- C8 witness: the 16-byte-multiple property at a concrete one-element
query in both revisions. -/
theorem C8_witness :
    ((compile1 [qe .PM_METRIC_DROPPED_FRAMES]).toOption.getD default).blobSize % 16 = 0 ∧
    ((compile2 [qe .PM_METRIC_DROPPED_FRAMES]).toOption.getD default).blobSize % 16 = 0 := by
  exact ⟨C8_blob_multiple_of_16.1 [qe .PM_METRIC_DROPPED_FRAMES] _ (by decide),
         C8_blob_multiple_of_16.2 [qe .PM_METRIC_DROPPED_FRAMES] _ (by decide)⟩

/-- C9 counterexample: a revision-2 query holding an unsupported metric and
two different non-zero device ids fails with the null-command fault, not
with DuplicateDeviceError, refuting the claimed equivalence for that
revision. -/
theorem C9_counterexample :
    compile2 [qe .PM_METRIC_CPU_VENDOR, qeDev .PM_METRIC_GPU_POWER 1,
              qeDev .PM_METRIC_GPU_POWER 2]
      = .error CompileError2.nullCommandFault ∧
    hasConflict [qe .PM_METRIC_CPU_VENDOR, qeDev .PM_METRIC_GPU_POWER 1,
                 qeDev .PM_METRIC_GPU_POWER 2] ∧
    CompileError2.nullCommandFault ≠ CompileError2.duplicateDevice := by
  refine ⟨by decide, by decide, by decide⟩

/-- C9 (amended): in revision 1 the claim holds exactly: compile fails with
DuplicateDeviceError iff the query holds two different non-zero device ids,
and a successful compile's referencedDevice is the first non-zero device id
(unset when all are zero); compile is a pure function, so a failing compile
changes no state. In revision 2 the duplicate-device failure still implies
such a conflict, but the converse can be preempted by the unknown-metric
fault. -/
theorem C9_amended_device_rule :
    (∀ qs, compile1 qs = .error CompileError1.duplicateDevice ↔ hasConflict qs) ∧
    (∀ qs fq, compile1 qs = .ok fq → fq.referencedDevice = (nonzeroDevs qs).head?) ∧
    (∀ qs, compile2 qs = .error CompileError2.duplicateDevice → hasConflict qs) := by
  refine ⟨?_, ?_, ?_⟩
  · intro qs
    constructor
    · intro H
      exact (compileAux1_dup qs 0 none (compile1_error_elim _ _ H)).2 rfl
    · intro hc
      cases hres : compile1 qs with
      | error e =>
        cases e
        rfl
      | ok fq =>
        obtain ⟨zs, blob, ref, haux, _⟩ := compile1_ok_elim _ _ hres
        exact absurd hc ((compileAux1_ok_noConflict qs 0 none _ haux).2 rfl)
  · intro qs fq hc
    obtain ⟨zs, blob, ref, haux, hfq⟩ := compile1_ok_elim _ _ hc
    subst hfq
    exact compileAux1_ref qs 0 none _ haux
  · intro qs H
    exact (compileAux2_dup qs 0 none (compile2_error_elim _ _ H)).2 rfl

/-- C9 witness: the iff applied to a concrete conflicting query, and the
referenced-device clause at a concrete single-device query. -/
theorem C9_witness :
    compile1 [qeDev .PM_METRIC_GPU_POWER 1, qeDev .PM_METRIC_GPU_POWER 2]
      = .error CompileError1.duplicateDevice ∧
    ((compile1 [qeDev .PM_METRIC_GPU_POWER 3]).toOption.getD default).referencedDevice
      = (nonzeroDevs [qeDev .PM_METRIC_GPU_POWER 3]).head? := by
  exact ⟨(C9_amended_device_rule.1 _).mpr (by decide),
         C9_amended_device_rule.2.1 _ _ (by decide)⟩

/-- C10 counterexample: the revision-2 ANIMATION_ERROR command writes NaN —
not 0.0 — when the frame is not dropped and previousDisplayedCpuStartQpc is
zero. -/
theorem C10_counterexample :
    (compile2 [qe .PM_METRIC_ANIMATION_ERROR]).toOption.map
        (fun fq => gatherToBlob2 fq ctx2ZeroPrev) = some [⟨0, 8, Val.nan⟩] ∧
    ctx2ZeroPrev.dropped = false ∧
    ctx2ZeroPrev.previousDisplayedCpuStartQpc = 0 ∧
    Val.nan ≠ Val.num 0 := by
  refine ⟨by decide, rfl, rfl, by decide⟩

/-- C10 (amended): for a non-dropped context with
previousDisplayedCpuStartQpc = 0, the ANIMATION_ERROR gather command of
revision 1 writes 0.0, while the revision-2 command writes NaN. -/
theorem C10_amended_animation_error :
    (∀ ai pos (cmd : Cmd1) (ctx : Ctx1),
      map1 .PM_METRIC_ANIMATION_ERROR ai pos = some cmd →
      ctx.dropped = false → ctx.previousDisplayedCpuStartQpc = 0 →
      (gather1 cmd ctx).val = Val.num 0) ∧
    (∀ ai pos (cmd : Cmd2) (ctx : Ctx2),
      map2 .PM_METRIC_ANIMATION_ERROR ai pos = some cmd →
      ctx.dropped = false → ctx.previousDisplayedCpuStartQpc = 0 →
      (gather2 cmd ctx).val = Val.nan) := by
  constructor
  · intro ai pos cmd ctx h hd hz
    simp only [map1] at h
    injection h with h
    subst h
    simp [gather1, hd, hz]
  · intro ai pos cmd ctx h hd hz
    simp only [map2] at h
    injection h with h
    subst h
    simp [gather2, hd, hz]

/-- C10 witness: both revisions' ANIMATION_ERROR commands evaluated at
concrete zero-previous contexts. -/
theorem C10_witness :
    (gather1 (Cmd1.animationError PreU64Field.ScreenTime true true 0 0) ctx1Live).val
      = Val.num 0 ∧
    (gather2 (Cmd2.animationError2 0 0) ctx2ZeroPrev).val = Val.nan := by
  exact ⟨C10_amended_animation_error.1 0 0 _ ctx1Live rfl rfl rfl,
         C10_amended_animation_error.2 0 0 _ ctx2ZeroPrev rfl rfl rfl⟩
